import Mathlib

/-!
# Mind It PWA API: the request handler of `api/index.js`

A shallow embedding of the single serverless handler
`export default async function handler(req, res)` and the properties of its
routing, validation and store-fallback behaviour.

Modelling conventions.

* JavaScript values are the type `JsVal`.  A Lean `Char` stands for one UTF-16
  code unit, so the strings covered are those without surrogate code units;
  every character the handler inspects (`/` and white space) is of that kind.
  Numbers carry an integer: the handler only tests numbers for truthiness and
  copies them.
* An object is its list of own enumerable properties; where a list names a key
  twice the later entry is the value, as when a JSON text repeats a key.
* The platform (`URL`, `Date`) and the store client (`supabase`) are inputs:
  `Env` gives the outcome of `new URL(..).pathname`, the successive clock
  readings and `toISOString`; the store is a function from the query issued to
  the outcome of awaiting it.
* The handler is a computation over `St`, the mutable state of one invocation:
  the response object (`res`) being prepared, the number of clock readings
  made, and the trace of observable effects (console output, store queries,
  responses sent).  A JavaScript exception is the `threw` result.
-/

namespace MindIt

/-! ## JavaScript values -/

/-- JavaScript values as the handler can receive them in `req.body` (the parsed
JSON or text body, or `undefined` when the request has none) and build them
for `res.json`. -/
inductive JsVal where
  | undefined
  | null
  | bool (b : Bool)
  | num (n : Int)
  | str (s : String)
  | arr (items : List JsVal)
  | obj (fields : List (String × JsVal))

/-- JavaScript `ToBoolean`: `undefined`, `null`, `false`, `0` and `''` are falsy. -/
def truthy : JsVal → Bool
  | .undefined => false
  | .null => false
  | .bool b => b
  | .num n => n != 0
  | .str s => s != ""
  | .arr _ => true
  | .obj _ => true

/-- Whether a value is `undefined` or `null`. -/
def nullish : JsVal → Bool
  | .undefined => true
  | .null => true
  | _ => false

/-- Last entry for key `k` in a property list (a later write overrides). -/
def ownGet (k : String) : List (String × JsVal) → Option JsVal
  | [] => none
  | (k', v) :: rest =>
    match ownGet k rest with
    | some w => some w
    | none => if k' = k then some v else none

/-- Own enumerable properties of a value, as the spread `...v` copies them:
the fields of an object, the indexed elements of an array, the indexed code
units of a string, nothing for the other values. -/
def ownProps : JsVal → List (String × JsVal)
  | .obj fields => fields
  | .arr items => items.enum.map (fun p => (toString p.1, p.2))
  | .str s => s.data.enum.map (fun p => (toString p.1, JsVal.str (String.singleton p.2)))
  | _ => []

/-- Property read `v.k` for a key that no prototype defines (`texto`, `userId`,
`status`, `id`, ... ): the own property, or `undefined`. -/
def getProp (v : JsVal) (k : String) : JsVal :=
  (ownGet k (ownProps v)).getD JsVal.undefined

/-- Write `k: v` into a property list: an existing key keeps its place and takes
the new value, a new key goes last. -/
def setProp (k : String) (v : JsVal) : List (String × JsVal) → List (String × JsVal)
  | [] => [(k, v)]
  | (k', v') :: rest =>
    if k' = k then (k', v) :: rest.filter (fun p => p.1 != k)
    else (k', v') :: setProp k v rest

/-- The object literal `{ ...target, ...src }`: every own enumerable property of
`src` is written, in order, over the properties `target` already listed. -/
def spreadInto (target : List (String × JsVal)) (src : JsVal) : List (String × JsVal) :=
  (ownProps src).foldl (fun acc p => setProp p.1 p.2 acc) target

/-! ## Strings: `trim`, `split`, `startsWith` -/

/-- The code units `String.prototype.trim` strips: ECMAScript WhiteSpace
(TAB, VT, FF, SP, NBSP, ZWNBSP and the space separators) and LineTerminator
(LF, CR, LS, PS). -/
def isJsSpace (c : Char) : Bool :=
  let n := c.toNat
  n == 0x09 || n == 0x0A || n == 0x0B || n == 0x0C || n == 0x0D || n == 0x20 ||
  n == 0xA0 || n == 0x1680 || (0x2000 ≤ n && n ≤ 0x200A) || n == 0x2028 ||
  n == 0x2029 || n == 0x202F || n == 0x205F || n == 0x3000 || n == 0xFEFF

/-- JavaScript `s.trim()`. -/
def jsTrim (s : String) : String :=
  ⟨((s.data.dropWhile isJsSpace).reverse.dropWhile isJsSpace).reverse⟩

/-- The pieces of a code-unit list between occurrences of `sep`. -/
def splitChars (sep : Char) : List Char → List (List Char)
  | [] => [[]]
  | c :: cs =>
    if c = sep then [] :: splitChars sep cs
    else
      match splitChars sep cs with
      | [] => [[c]]
      | piece :: pieces => (c :: piece) :: pieces

/-- JavaScript `s.split(sep)` for a one-character separator. -/
def jsSplit (s : String) (sep : Char) : List String :=
  (splitChars sep s.data).map String.mk

/-- JavaScript `s.startsWith(p)`. -/
def jsStartsWith (s p : String) : Bool :=
  p.data.isPrefixOf s.data

/-- JavaScript `xs[i]` on an array of strings: the element, or `undefined` past the end. -/
def strAt (xs : List String) (i : Nat) : JsVal :=
  match xs.get? i with
  | some s => JsVal.str s
  | none => JsVal.undefined

/-! ## Request, store, platform -/

/-- The part of `req` the handler reads. `host` is `req.headers.host`
(`none` when the header is missing); `body` is `req.body`. -/
structure Request where
  method : String
  url : String
  host : Option String
  body : JsVal

/-- The queries the handler issues through the store client. -/
inductive StoreOp where
  /-- Query `from(t).select(cols).order(col, { ascending }).limit(n)` -/
  | select (table cols orderCol : String) (ascending : Bool) (limit : Nat)
  /-- Query `from(t).insert(rows).select()` -/
  | insert (table : String) (rows : List JsVal)
  /-- Query `from(t).update(patch).eq(col, v).select()` -/
  | update (table : String) (patch : JsVal) (col : String) (v : JsVal)
  /-- Query `from(t).delete().eq(col, v)` -/
  | delete (table : String) (col : String) (v : JsVal)

/-- What awaiting a store query gives: the client throws or its promise
rejects; the promise resolves to `null`/`undefined`; or it resolves to a
result `{ data, error }` whose `data` is an array of rows or `null`. -/
inductive StoreOutcome where
  | rejected (reason : JsVal)
  | nothing
  | resolved (data : Option (List JsVal)) (error : JsVal)

/-- The store client: the outcome of each query. -/
abbrev Store := StoreOp → StoreOutcome

/-- The platform. `parseURL url base` is the `pathname` of `new URL(url, base)`,
or `none` when the constructor throws; `clock k` is the time in milliseconds
returned by the `k`-th reading of the clock in this invocation; `toISOString`
formats such a time. -/
structure Env where
  parseURL : String → String → Option String
  clock : Nat → Nat
  toISOString : Nat → String

/-- A thrown JavaScript value: a `TypeError` raised by the language, or a value
thrown by the program or the store client. -/
inductive Thrown where
  | typeError (what : String)
  | value (v : JsVal)

/-- A response as sent to the client; `body` is the value given to `res.json`,
`none` for `res.end()`. -/
structure Response where
  status : Nat
  headers : List (String × String)
  body : Option JsVal

/-- Observable effects of one invocation, in order. -/
inductive Event where
  | log (line : String)
  | logError (label : String) (err : Thrown)
  | query (op : StoreOp)
  | send (r : Response)

/-- State of one invocation: clock readings made so far, the headers and the
status code set on `res`, and the effects so far. -/
structure St where
  reads : Nat
  headers : List (String × String)
  statusCode : Nat
  events : List Event

/-- A fresh invocation: nothing read, no header set, status 200 (the default of
a Node response), no effect yet. -/
def St.init : St := ⟨0, [], 200, []⟩

/-- Result of running a computation: a value, or a thrown exception, each with
the state reached. -/
inductive Step (α : Type) where
  | ok (a : α) (s : St)
  | threw (e : Thrown) (s : St)

/-- Computations of the handler. -/
@[reducible] def Eff (α : Type) : Type := St → Step α

/-- Sequencing: an exception skips the rest. -/
def Eff.bind {α β : Type} (x : Eff α) (f : α → Eff β) : Eff β := fun s =>
  match x s with
  | .ok a s' => f a s'
  | .threw e s' => .threw e s'

instance : Monad Eff where
  pure a := fun s => .ok a s
  bind := Eff.bind

/-- JavaScript `throw e`. -/
def raise {α : Type} (e : Thrown) : Eff α := fun s => .threw e s

/-- JavaScript `try { body } catch (error) { handle error }`. -/
def tryCatch {α : Type} (body : Eff α) (handle : Thrown → Eff α) : Eff α := fun s =>
  match body s with
  | .ok a s' => .ok a s'
  | .threw e s' => handle e s'

/-- Append an effect to the trace. -/
def emit (e : Event) : Eff Unit := fun s =>
  .ok () { s with events := s.events ++ [e] }

/-- One reading of the clock (`new Date()` or `Date.now()`). -/
def readClock (env : Env) : Eff Nat := fun s =>
  .ok (env.clock s.reads) { s with reads := s.reads + 1 }

/-- JavaScript `new Date().toISOString()`. -/
def newDateISO (env : Env) : Eff String := do
  let t ← readClock env
  pure (env.toISOString t)

/-- JavaScript `res.setHeader(name, value)`: replaces a header of that name. -/
def setHeader (name value : String) : Eff Unit := fun s =>
  .ok () { s with headers := s.headers.filter (fun h => h.1 != name) ++ [(name, value)] }

/-- JavaScript `res.status(code)`. -/
def status (code : Nat) : Eff Unit := fun s =>
  .ok () { s with statusCode := code }

/-- JavaScript `.end()`: send the response with no body. -/
def sendEnd : Eff Unit := fun s =>
  .ok () { s with events := s.events ++ [Event.send ⟨s.statusCode, s.headers, none⟩] }

/-- JavaScript `.json(v)`: send the response with body `v`. -/
def sendJson (v : JsVal) : Eff Unit := fun s =>
  .ok () { s with events := s.events ++ [Event.send ⟨s.statusCode, s.headers, some v⟩] }

/-- JavaScript `const { .. } = v` and `v.k`: a `TypeError` when `v` is `undefined` or `null`. -/
def requireObject (v : JsVal) : Eff Unit :=
  if nullish v then raise (Thrown.typeError "Cannot read properties of undefined or null")
  else pure ()

/-- JavaScript `v.trim()`: the trimmed string; a `TypeError` when `v` is not a string
(its `trim` is then not a function). -/
def callTrim : JsVal → Eff String
  | .str s => pure (jsTrim s)
  | _ => raise (Thrown.typeError "texto.trim is not a function")

/-- JavaScript `const { data, error } = await query`: the query is issued; a rejection is
thrown; destructuring a `null`/`undefined` result is a `TypeError`. -/
def awaitQuery (store : Store) (op : StoreOp) : Eff (Option (List JsVal) × JsVal) := do
  emit (Event.query op)
  match store op with
  | .rejected reason => raise (Thrown.value reason)
  | .nothing => raise (Thrown.typeError "Cannot destructure the awaited result")
  | .resolved data error => pure (data, error)

/-- JavaScript `data.length`: a `TypeError` when `data` is `null`. -/
def dataLength : Option (List JsVal) → Eff JsVal
  | some rows => pure (JsVal.num rows.length)
  | none => raise (Thrown.typeError "Cannot read properties of null (reading length)")

/-- JavaScript `data[0]`: the first row, `undefined` for an empty array, a `TypeError`
when `data` is `null`. -/
def dataFirst : Option (List JsVal) → Eff JsVal
  | some rows => pure (rows.head?.getD JsVal.undefined)
  | none => raise (Thrown.typeError "Cannot read properties of null (reading 0)")

/-- The value of `data` as a JavaScript value. -/
def dataVal : Option (List JsVal) → JsVal
  | some rows => JsVal.arr rows
  | none => JsVal.null

/-! ## The handler -/

/-- The base given to `new URL`: the template string with `req.headers.host`
interpolated. -/
def baseOf (req : Request) : String :=
  "http://" ++ req.host.getD "undefined"

/-- JavaScript `const { pathname } = new URL(req.url, base)`. -/
def parsePathname (env : Env) (req : Request) : Eff String :=
  match env.parseURL req.url (baseOf req) with
  | some p => pure p
  | none => raise (Thrown.typeError "Invalid URL")

/-- The four `res.setHeader` calls that open the handler. -/
def setCors : Eff Unit := do
  setHeader "Access-Control-Allow-Origin" "*"
  setHeader "Access-Control-Allow-Methods" "GET, POST, PUT, DELETE, OPTIONS"
  setHeader "Access-Control-Allow-Headers" "Content-Type, Authorization, X-Requested-With"
  setHeader "Access-Control-Max-Age" "86400"

/-- The body of the health check, for server time `ts`. -/
def healthBody (ts : String) : JsVal :=
  JsVal.obj [
    ("success", JsVal.bool true),
    ("message", JsVal.str "🚀 API Mind It PWA Online!"),
    ("version", JsVal.str "1.0.0"),
    ("timestamp", JsVal.str ts),
    ("endpoints", JsVal.obj [
      ("GET", JsVal.str "/api/lembretes - Listar lembretes"),
      ("POST", JsVal.str "/api/lembretes - Criar lembrete"),
      ("PUT", JsVal.str "/api/lembretes/:id - Atualizar lembrete"),
      ("DELETE", JsVal.str "/api/lembretes/:id - Excluir lembrete")])]

/-- Route `GET /` and `GET /api`: the health check. -/
def health (env : Env) : Eff Unit := do
  status 200
  let ts ← newDateISO env
  sendJson (healthBody ts)

/-- The two mock rows of the list fallback. -/
def mockRows (t1 t2 : String) : List JsVal :=
  [JsVal.obj [("id", JsVal.num 1), ("texto", JsVal.str "Reunião às 10h"), ("created_at", JsVal.str t1)],
   JsVal.obj [("id", JsVal.num 2), ("texto", JsVal.str "Comprar leite"), ("created_at", JsVal.str t2)]]

/-- Route `GET /api/lembretes`: list. -/
def listLembretes (env : Env) (store : Store) : Eff Unit :=
  tryCatch
    (do
      let (data, error) ← awaitQuery store (StoreOp.select "lembretes" "*" "created_at" false 50)
      if truthy error then raise (Thrown.value error)
      else do
        status 200
        let count ← dataLength data
        sendJson (JsVal.obj [
          ("success", JsVal.bool true),
          ("count", count),
          ("data", dataVal data)]))
    (fun error => do
      emit (Event.logError "Erro ao buscar lembretes:" error)
      status 200
      let t1 ← newDateISO env
      let t2 ← newDateISO env
      sendJson (JsVal.obj [
        ("success", JsVal.bool true),
        ("message", JsVal.str "Modo offline - usando dados mock"),
        ("data", JsVal.arr (mockRows t1 t2))]))

/-- The row `lembrete` built by create: trimmed text, owner defaulted by
`userId || 'pwa-user'`, creation time, status `ativo`. -/
def lembreteRow (trimmed : String) (userId : JsVal) (createdAt : String) : JsVal :=
  JsVal.obj [
    ("texto", JsVal.str trimmed),
    ("user_id", if truthy userId then userId else JsVal.str "pwa-user"),
    ("created_at", JsVal.str createdAt),
    ("status", JsVal.str "ativo")]

/-- Route `POST /api/lembretes`: create. -/
def createLembrete (env : Env) (store : Store) (req : Request) : Eff Unit :=
  tryCatch
    (do
      requireObject req.body
      let texto := getProp req.body "texto"
      let userId := getProp req.body "userId"
      let blank ← (if !truthy texto then pure true
                   else do
                     let t ← callTrim texto
                     pure (t == ""))
      if blank then do
        status 400
        sendJson (JsVal.obj [
          ("success", JsVal.bool false),
          ("message", JsVal.str "Texto do lembrete é obrigatório")])
      else do
        let trimmed ← callTrim texto
        let createdAt ← newDateISO env
        let lembrete := lembreteRow trimmed userId createdAt
        let (data, error) ← awaitQuery store (StoreOp.insert "lembretes" [lembrete])
        if truthy error then raise (Thrown.value error)
        else do
          status 201
          let row ← dataFirst data
          sendJson (JsVal.obj [
            ("success", JsVal.bool true),
            ("message", JsVal.str "Lembrete criado com sucesso!"),
            ("data", row)]))
    (fun error => do
      emit (Event.logError "Erro ao criar lembrete:" error)
      status 201
      let id ← readClock env
      requireObject req.body
      let texto := getProp req.body "texto"
      let createdAt ← newDateISO env
      sendJson (JsVal.obj [
        ("success", JsVal.bool true),
        ("message", JsVal.str "Lembrete salvo localmente (modo offline)"),
        ("data", JsVal.obj [
          ("id", JsVal.num id),
          ("texto", texto),
          ("created_at", JsVal.str createdAt),
          ("status", JsVal.str "ativo")])]))

/-- Route `PUT /api/lembretes/:id`: update. -/
def updateLembrete (env : Env) (store : Store) (req : Request) (pathname : String) : Eff Unit := do
  let id := strAt (jsSplit pathname '/') 3
  tryCatch
    (do
      requireObject req.body
      let texto := getProp req.body "texto"
      let st := getProp req.body "status"
      let updatedAt ← newDateISO env
      let patch := JsVal.obj [("texto", texto), ("status", st), ("updated_at", JsVal.str updatedAt)]
      let (data, error) ← awaitQuery store (StoreOp.update "lembretes" patch "id" id)
      if truthy error then raise (Thrown.value error)
      else do
        status 200
        let row ← dataFirst data
        sendJson (JsVal.obj [
          ("success", JsVal.bool true),
          ("message", JsVal.str "Lembrete atualizado"),
          ("data", row)]))
    (fun _ => do
      status 200
      sendJson (JsVal.obj [
        ("success", JsVal.bool true),
        ("message", JsVal.str "Atualização simulada (offline)"),
        ("data", JsVal.obj (spreadInto [("id", id)] req.body))]))

/-- Route `DELETE /api/lembretes/:id`: delete. -/
def deleteLembrete (store : Store) (pathname : String) : Eff Unit := do
  let id := strAt (jsSplit pathname '/') 3
  tryCatch
    (do
      let (_, error) ← awaitQuery store (StoreOp.delete "lembretes" "id" id)
      if truthy error then raise (Thrown.value error)
      else do
        status 200
        sendJson (JsVal.obj [
          ("success", JsVal.bool true),
          ("message", JsVal.str "Lembrete excluído")]))
    (fun _ => do
      status 200
      sendJson (JsVal.obj [
        ("success", JsVal.bool true),
        ("message", JsVal.str "Exclusão simulada (offline)"),
        ("id", id)]))

/-- The catch-all: route not found. -/
def notFound (pathname : String) : Eff Unit := do
  status 404
  sendJson (JsVal.obj [
    ("success", JsVal.bool false),
    ("message", JsVal.str "Rota não encontrada"),
    ("path", JsVal.str pathname)])

/-- The routes, tried in source order, once `pathname` is known. -/
def route (env : Env) (store : Store) (req : Request) (pathname : String) : Eff Unit :=
  if req.method = "GET" ∧ (pathname = "/" ∨ pathname = "/api") then
    health env
  else if req.method = "GET" ∧ pathname = "/api/lembretes" then
    listLembretes env store
  else if req.method = "POST" ∧ pathname = "/api/lembretes" then
    createLembrete env store req
  else if req.method = "PUT" ∧ jsStartsWith pathname "/api/lembretes/" = true then
    updateLembrete env store req pathname
  else if req.method = "DELETE" ∧ jsStartsWith pathname "/api/lembretes/" = true then
    deleteLembrete store pathname
  else
    notFound pathname

/-- The handler: CORS headers, preflight, log, URL parsing, then the routes. -/
def handler (env : Env) (store : Store) (req : Request) : Eff Unit := do
  setCors
  if req.method = "OPTIONS" then do
    status 200
    sendEnd
  else do
    let now ← newDateISO env
    emit (Event.log ("[" ++ now ++ "] " ++ req.method ++ " " ++ req.url))
    let pathname ← parsePathname env req
    route env store req pathname

/-- One invocation of the handler from a fresh state. -/
def run (env : Env) (store : Store) (req : Request) : Step Unit :=
  handler env store req St.init

/-- The state an invocation ends in. -/
def Step.state {α : Type} : Step α → St
  | .ok _ s => s
  | .threw _ s => s

/-- The responses among a list of effects. -/
def sentOf : List Event → List Response
  | [] => []
  | Event.send r :: rest => r :: sentOf rest
  | _ :: rest => sentOf rest

/-- The store queries among a list of effects. -/
def queriesOf : List Event → List StoreOp
  | [] => []
  | Event.query op :: rest => op :: queriesOf rest
  | _ :: rest => queriesOf rest

/-- The responses an invocation sent, in order. -/
def responses (env : Env) (store : Store) (req : Request) : List Response :=
  sentOf (run env store req).state.events

/-- The store queries an invocation issued, in order. -/
def queries (env : Env) (store : Store) (req : Request) : List StoreOp :=
  queriesOf (run env store req).state.events

/-- Whether the invocation ended by an exception leaving the handler. -/
def escaped (env : Env) (store : Store) (req : Request) : Bool :=
  match run env store req with
  | .ok _ _ => false
  | .threw _ _ => true

/-! ## Vocabulary of the specification -/

/-- The CORS headers every response must carry. -/
def corsHeaders : List (String × String) :=
  [("Access-Control-Allow-Origin", "*"),
   ("Access-Control-Allow-Methods", "GET, POST, PUT, DELETE, OPTIONS"),
   ("Access-Control-Allow-Headers", "Content-Type, Authorization, X-Requested-With"),
   ("Access-Control-Max-Age", "86400")]

/-- The log line written for a request that is not a preflight. -/
def logLine (env : Env) (req : Request) : String :=
  "[" ++ env.toISOString (env.clock 0) ++ "] " ++ req.method ++ " " ++ req.url

/-- A store outcome that signals an error: the call throws or rejects, resolves
to nothing, or resolves with a truthy `error`. -/
def StoreOutcome.failed : StoreOutcome → Bool
  | .rejected _ => true
  | .nothing => true
  | .resolved _ error => truthy error

/-- The row sequence a store outcome returns without error, if it does. -/
def StoreOutcome.rows : StoreOutcome → Option (List JsVal)
  | .resolved (some rows) error => if truthy error then none else some rows
  | _ => none

/-- Field `k` of `v` is populated: neither `undefined` nor `null`. -/
def populated (v : JsVal) (k : String) : Bool :=
  !nullish (getProp v k)

/-- The text values for which create answers 400, as the code tests them
(`!texto || texto.trim() === ''`): the falsy values and the strings that are
empty after trimming. -/
def textRejected : JsVal → Bool
  | .undefined => true
  | .null => true
  | .bool b => !b
  | .num n => n == 0
  | .str s => jsTrim s == ""
  | .arr _ => false
  | .obj _ => false

/-- The text values the specification names for the 400 answer: absent, empty
or whitespace-only. -/
def textAbsentOrBlank : JsVal → Bool
  | .undefined => true
  | .null => true
  | .str s => jsTrim s == ""
  | _ => false

/-- The routing table as the specification words it: exact paths for health,
list and create; for update and delete, `/api/lembretes/` followed by a single
path segment. -/
def inRoutingTable (method path : String) : Bool :=
  (method == "GET" && (path == "/" || path == "/api" || path == "/api/lembretes")) ||
  (method == "POST" && path == "/api/lembretes") ||
  ((method == "PUT" || method == "DELETE") && jsStartsWith path "/api/lembretes/" &&
    !(path.data.drop 15).contains '/')

/-- The routing table as the code matches it: exact paths for health, list and
create; for update and delete, any path that starts with `/api/lembretes/`. -/
def routedByCode (method path : String) : Bool :=
  (method == "GET" && (path == "/" || path == "/api" || path == "/api/lembretes")) ||
  (method == "POST" && path == "/api/lembretes") ||
  ((method == "PUT" || method == "DELETE") && jsStartsWith path "/api/lembretes/")

/-- The path segment that follows `/api/lembretes/` in a path with that prefix:
the code units after the prefix up to the next `/` or the end. -/
def firstSegment (path : String) : String :=
  ⟨(path.data.drop 15).takeWhile (fun c => c != '/')⟩

/-- The state in which routing starts for a request that is not a preflight:
one clock reading made, the CORS headers set, status 200, the request logged. -/
def routingState (env : Env) (req : Request) : St :=
  ⟨1, corsHeaders, 200, [Event.log (logLine env req)]⟩

/-- The select issued by list. -/
def listQuery : StoreOp :=
  StoreOp.select "lembretes" "*" "created_at" false 50

/-- The insert issued by create for trimmed text `t` and owner field `userId`. -/
def insertQuery (env : Env) (t : String) (userId : JsVal) : StoreOp :=
  StoreOp.insert "lembretes" [lembreteRow t userId (env.toISOString (env.clock 1))]

/-- The update issued for path id `id` and request body `body`. -/
def updateQuery (env : Env) (id : JsVal) (body : JsVal) : StoreOp :=
  StoreOp.update "lembretes"
    (JsVal.obj [("texto", getProp body "texto"), ("status", getProp body "status"),
      ("updated_at", JsVal.str (env.toISOString (env.clock 1)))]) "id" id

/-- The delete issued for path id `id`. -/
def deleteQuery (id : JsVal) : StoreOp :=
  StoreOp.delete "lembretes" "id" id

/-- The body of a JSON response `{ success, message, data }`. -/
def withData (message : String) (data : JsVal) : JsVal :=
  JsVal.obj [("success", JsVal.bool true), ("message", JsVal.str message), ("data", data)]

/-! ## Outcomes of an invocation -/

/-- Whether a query writes rows (insert or update) and asks them back. -/
def StoreOp.isWrite : StoreOp → Bool
  | .insert _ _ => true
  | .update _ _ _ _ => true
  | _ => false

/-- The invocation sends exactly the response `r`, issues exactly the queries
`qs`, and returns normally. -/
def Answers (env : Env) (store : Store) (req : Request) (r : Response) (qs : List StoreOp) : Prop :=
  responses env store req = [r] ∧ queries env store req = qs ∧ escaped env store req = false

/-- What a terminated invocation sent: one response with the CORS headers; it
is a 400 only for a create whose text is rejected, a 404 only for an unrouted
request, and otherwise a 200 or a 201. -/
def Sent (env : Env) (store : Store) (req : Request) : Prop :=
  escaped env store req = false ∧ ∃ r, responses env store req = [r] ∧
    r.headers = corsHeaders ∧
    (r.status = 200 ∨ r.status = 201 ∨ r.status = 400 ∨ r.status = 404) ∧
    (r.status = 400 → req.method = "POST" ∧
      env.parseURL req.url (baseOf req) = some "/api/lembretes" ∧
      textRejected (getProp req.body "texto") = true ∧
      r.body = some (JsVal.obj [("success", JsVal.bool false),
        ("message", JsVal.str "Texto do lembrete é obrigatório")])) ∧
    (r.status = 404 → ∃ p, env.parseURL req.url (baseOf req) = some p ∧
      routedByCode req.method p = false)

/-- An invocation that an exception left: nothing was sent; either the URL did
not parse or the request is a create without a body. -/
def Escaped (env : Env) (store : Store) (req : Request) : Prop :=
  escaped env store req = true ∧ responses env store req = [] ∧ req.method ≠ "OPTIONS" ∧
    (env.parseURL req.url (baseOf req) = none ∨
      (req.method = "POST" ∧ env.parseURL req.url (baseOf req) = some "/api/lembretes" ∧
        nullish req.body = true))

/-! ## Sample inputs -/

/-- A sample platform for concrete runs: a request target without query or
fragment is its own pathname, the clock stands at 2024-01-01T00:00:00.000Z. -/
def sampleEnv : Env where
  parseURL := fun url _ => some url
  clock := fun _ => 1704067200000
  toISOString := fun _ => "2024-01-01T00:00:00.000Z"

/-- A store that is unreachable: every query rejects. -/
def downStore : Store := fun _ => StoreOutcome.rejected (JsVal.str "fetch failed")

/-- A reachable store: an insert returns the inserted rows with an `id` column
added, a select or update returns one stored row, a delete returns no data. -/
def upStore : Store
  | .insert _ rows =>
    StoreOutcome.resolved (some (rows.map (fun r => JsVal.obj (setProp "id" (JsVal.num 1) (ownProps r)))))
      JsVal.null
  | .delete _ _ _ => StoreOutcome.resolved none JsVal.null
  | _ =>
    StoreOutcome.resolved (some [JsVal.obj [("id", JsVal.num 1), ("texto", JsVal.str "Comprar leite"),
      ("created_at", JsVal.str "2024-01-01T00:00:00.000Z"), ("status", JsVal.str "ativo")]]) JsVal.null

/-- A request with a host header. -/
def mkReq (method url : String) (body : JsVal) : Request :=
  ⟨method, url, some "localhost", body⟩

/-! # Properties -/

/-! ## Running computations -/

@[simp] theorem pure_apply {α : Type} (a : α) (s : St) : (pure a : Eff α) s = Step.ok a s := rfl

@[simp] theorem bind_apply {α β : Type} (x : Eff α) (f : α → Eff β) (s : St) :
    (x >>= f) s = Eff.bind x f s := rfl

/-- The state in which routing starts: CORS headers set, one clock reading made
for the log line, the request logged. -/
theorem run_routed (env : Env) (store : Store) (req : Request) (p : String)
    (hm : req.method ≠ "OPTIONS") (hp : env.parseURL req.url (baseOf req) = some p) :
    run env store req =
      route env store req p ⟨1, corsHeaders, 200, [Event.log (logLine env req)]⟩ := by
  simp [run, handler, hm, Eff.bind, setCors, setHeader, St.init, newDateISO, readClock, emit,
    parsePathname, hp, corsHeaders, logLine]

/-- A preflight request is answered at once. -/
theorem run_options (env : Env) (store : Store) (req : Request) (hm : req.method = "OPTIONS") :
    run env store req =
      Step.ok () ⟨0, corsHeaders, 200, [Event.send ⟨200, corsHeaders, none⟩]⟩ := by
  simp [run, handler, hm, Eff.bind, setCors, setHeader, St.init, status, sendEnd, corsHeaders]

/-- A request whose URL does not parse: the `TypeError` of `new URL` leaves the handler. -/
theorem run_bad_url (env : Env) (store : Store) (req : Request)
    (hm : req.method ≠ "OPTIONS") (hp : env.parseURL req.url (baseOf req) = none) :
    run env store req = Step.threw (Thrown.typeError "Invalid URL")
      ⟨1, corsHeaders, 200, [Event.log (logLine env req)]⟩ := by
  simp [run, handler, hm, Eff.bind, setCors, setHeader, St.init, newDateISO, readClock, emit,
    parsePathname, hp, corsHeaders, logLine, raise]

theorem route_health (env : Env) (store : Store) (req : Request) (p : String)
    (hm : req.method = "GET") (hp : p = "/" ∨ p = "/api") :
    route env store req p = health env := by
  simp [route, hm, hp]

theorem route_list (env : Env) (store : Store) (req : Request)
    (hm : req.method = "GET") :
    route env store req "/api/lembretes" = listLembretes env store := by
  simp [route, hm]

theorem route_create (env : Env) (store : Store) (req : Request)
    (hm : req.method = "POST") :
    route env store req "/api/lembretes" = createLembrete env store req := by
  simp [route, hm]

theorem route_update (env : Env) (store : Store) (req : Request) (p : String)
    (hm : req.method = "PUT") (hp : jsStartsWith p "/api/lembretes/" = true) :
    route env store req p = updateLembrete env store req p := by
  simp [route, hm, hp]

theorem route_delete (env : Env) (store : Store) (req : Request) (p : String)
    (hm : req.method = "DELETE") (hp : jsStartsWith p "/api/lembretes/" = true) :
    route env store req p = deleteLembrete store p := by
  simp [route, hm, hp]

theorem route_not_found (env : Env) (store : Store) (req : Request) (p : String)
    (h : routedByCode req.method p = false) :
    route env store req p = notFound p := by
  simp only [routedByCode, Bool.or_eq_false_iff, Bool.and_eq_false_iff, beq_eq_false_iff_ne,
    ne_eq, Bool.or_eq_true, Bool.and_eq_true, beq_iff_eq, not_or, not_and] at h
  obtain ⟨⟨h1, h2⟩, h3⟩ := h
  unfold route
  rw [if_neg, if_neg, if_neg, if_neg, if_neg]
  · rintro ⟨hm, hp⟩
    rcases h3 with h3 | h3
    · exact h3.2 hm
    · simp [hp] at h3
  · rintro ⟨hm, hp⟩
    rcases h3 with h3 | h3
    · exact h3.1 hm
    · simp [hp] at h3
  · rintro ⟨hm, hp⟩
    rcases h2 with h2 | h2
    · exact h2 hm
    · exact h2 hp
  · rintro ⟨hm, hp⟩
    rcases h1 with h1 | h1
    · exact h1 hm
    · exact h1.2 hp
  · rintro ⟨hm, hp⟩
    rcases h1 with h1 | h1
    · exact h1 hm
    · rcases hp with hp | hp
      · exact h1.1.1 hp
      · exact h1.1.2 hp

/-! ## Objects -/

theorem ownGet_filter (k k' : String) (fs : List (String × JsVal)) :
    ownGet k' (fs.filter (fun p => p.1 != k)) = if k' = k then none else ownGet k' fs := by
  induction fs with
  | nil => simp [ownGet]
  | cons f rest ih =>
    obtain ⟨k0, v0⟩ := f
    by_cases h0 : k0 = k
    · subst h0
      by_cases hk : k' = k0
      · subst hk
        simp [List.filter, ih]
      · have hk' : ¬ k0 = k' := fun e => hk e.symm
        simp [List.filter, ih, hk, ownGet, hk']
        cases ownGet k' rest <;> rfl
    · have : (k0 != k) = true := by simp [h0]
      by_cases hk : k' = k
      · subst hk
        simp [List.filter, this, ownGet, ih, h0]
      · simp [List.filter, this, ownGet, ih, hk]

theorem ownGet_setProp (k k' : String) (v : JsVal) (fs : List (String × JsVal)) :
    ownGet k' (setProp k v fs) = if k' = k then some v else ownGet k' fs := by
  induction fs with
  | nil =>
    by_cases hk : k' = k
    · subst hk
      simp [setProp, ownGet]
    · have hk' : ¬ k = k' := fun e => hk e.symm
      simp [setProp, ownGet, hk, hk']
  | cons f rest ih =>
    obtain ⟨k0, v0⟩ := f
    by_cases h0 : k0 = k
    · subst h0
      by_cases hk : k' = k0
      · subst hk
        simp [setProp, ownGet, ownGet_filter]
      · have hk' : ¬ k0 = k' := fun e => hk e.symm
        simp [setProp, ownGet, ownGet_filter, hk, hk']
    · by_cases hk : k' = k
      · subst hk
        simp [setProp, ownGet, h0, ih]
      · simp [setProp, ownGet, h0, ih, hk]

theorem ownGet_foldl (k : String) (l t : List (String × JsVal)) :
    ownGet k (l.foldl (fun acc p => setProp p.1 p.2 acc) t) =
      match ownGet k l with
      | some v => some v
      | none => ownGet k t := by
  induction l generalizing t with
  | nil => simp [ownGet]
  | cons f rest ih =>
    obtain ⟨k0, v0⟩ := f
    rw [List.foldl_cons, ih]
    cases hr : ownGet k rest with
    | some w => simp [ownGet, hr]
    | none =>
      by_cases hk : k0 = k
      · subst hk
        simp [ownGet, hr, ownGet_setProp]
      · have hk' : ¬ k = k0 := fun e => hk e.symm
        simp [ownGet, hr, ownGet_setProp, hk, hk']

/-- Reading a key of `{ ...target, ...src }`: the own property of `src` when
it has one, the property of `target` otherwise. -/
theorem getProp_spread (t : List (String × JsVal)) (src : JsVal) (k : String) :
    getProp (JsVal.obj (spreadInto t src)) k =
      match ownGet k (ownProps src) with
      | some v => v
      | none => getProp (JsVal.obj t) k := by
  unfold getProp spreadInto
  show (ownGet k (List.foldl (fun acc p => setProp p.1 p.2 acc) t (ownProps src))).getD
      JsVal.undefined = _
  rw [ownGet_foldl]
  cases ownGet k (ownProps src) <;> rfl

/-! ## Path segments -/

theorem splitChars_no_sep (sep : Char) (s : List Char) (h : sep ∉ s) :
    splitChars sep s = [s] := by
  induction s with
  | nil => rfl
  | cons c cs ih =>
    simp only [List.mem_cons, not_or] at h
    have hc : c ≠ sep := fun e => h.1 e.symm
    simp [splitChars, hc, ih h.2]

theorem splitChars_append_sep (sep : Char) (s r : List Char) (h : sep ∉ s) :
    splitChars sep (s ++ sep :: r) = s :: splitChars sep r := by
  induction s with
  | nil => simp [splitChars]
  | cons c cs ih =>
    simp only [List.mem_cons, not_or] at h
    have hc : c ≠ sep := fun e => h.1 e.symm
    simp [splitChars, hc, ih h.2]

theorem lembretes_data : ("/api/lembretes/" : String).data =
    [] ++ '/' :: (['a', 'p', 'i'] ++ '/' ::
      (['l', 'e', 'm', 'b', 'r', 'e', 't', 'e', 's'] ++ '/' :: [])) := by
  decide

/-- Splitting a path under `/api/lembretes/`: the pieces are the empty string,
`api`, `lembretes`, then the pieces of what follows. -/
theorem splitChars_lembretes (t : List Char) :
    splitChars '/' (("/api/lembretes/" : String).data ++ t) =
      [] :: ['a', 'p', 'i'] :: ['l', 'e', 'm', 'b', 'r', 'e', 't', 'e', 's'] ::
        splitChars '/' t := by
  rw [lembretes_data]
  simp only [List.append_assoc, List.cons_append, List.nil_append]
  rw [show '/' :: 'a' :: 'p' :: 'i' :: '/' :: 'l' :: 'e' :: 'm' :: 'b' :: 'r' :: 'e' :: 't' ::
      'e' :: 's' :: '/' :: t = [] ++ '/' :: (['a', 'p', 'i'] ++ '/' ::
        (['l', 'e', 'm', 'b', 'r', 'e', 't', 'e', 's'] ++ '/' :: t)) from rfl]
  rw [splitChars_append_sep _ _ _ (by decide), splitChars_append_sep _ _ _ (by decide),
    splitChars_append_sep _ _ _ (by decide)]

/-- The id taken from a path `/api/lembretes/` + `s` + `rest` is `s`. -/
theorem id_of_path (s rest : String) (hs : '/' ∉ s.data)
    (hr : rest = "" ∨ rest.data.head? = some '/') :
    strAt (jsSplit ("/api/lembretes/" ++ s ++ rest) '/') 3 = JsVal.str s := by
  have h1 : splitChars '/' (("/api/lembretes/" ++ s ++ rest).data) =
      [] :: ['a', 'p', 'i'] :: ['l', 'e', 'm', 'b', 'r', 'e', 't', 'e', 's'] ::
        splitChars '/' (s.data ++ rest.data) := by
    rw [String.data_append, String.data_append, List.append_assoc, splitChars_lembretes]
  have h2 : ∃ tl, splitChars '/' (s.data ++ rest.data) = s.data :: tl := by
    rcases hr with hr | hr
    · subst hr
      exact ⟨[], by simpa using splitChars_no_sep '/' s.data hs⟩
    · cases hd : rest.data with
      | nil => simp [hd] at hr
      | cons c cs =>
        simp [hd] at hr
        subst hr
        exact ⟨splitChars '/' cs, splitChars_append_sep '/' s.data cs hs⟩
  obtain ⟨tl, h2⟩ := h2
  unfold strAt jsSplit
  rw [h1, h2]
  simp

theorem startsWith_lembretes (s rest : String) :
    jsStartsWith ("/api/lembretes/" ++ s ++ rest) "/api/lembretes/" = true := by
  simp [jsStartsWith, String.data_append, List.append_assoc]

theorem splitChars_ne_nil (sep : Char) (t : List Char) : splitChars sep t ≠ [] := by
  cases t with
  | nil => simp [splitChars]
  | cons c cs =>
    by_cases h : c = sep
    · simp [splitChars, h]
    · cases hs : splitChars sep cs <;> simp [splitChars, h, hs]

/-- On a path that starts with `/api/lembretes/` the extracted id is a string. -/
theorem id_defined (p : String) (h : jsStartsWith p "/api/lembretes/" = true) :
    ∃ s, strAt (jsSplit p '/') 3 = JsVal.str s := by
  unfold jsStartsWith at h
  obtain ⟨t, ht⟩ := List.isPrefixOf_iff_prefix.mp h
  unfold strAt jsSplit
  rw [← ht, splitChars_lembretes]
  cases hs : splitChars '/' t with
  | nil => exact absurd hs (splitChars_ne_nil _ _)
  | cons a b => exact ⟨⟨a⟩, by simp⟩

theorem dropWhile_length_le (q : Char → Bool) (l : List Char) :
    (l.dropWhile q).length ≤ l.length :=
  (List.dropWhile_suffix q).length_le

/-- A string with leading or trailing white space is changed by `trim`. -/
theorem trim_changes (s : String)
    (h : (∃ c, s.data.head? = some c ∧ isJsSpace c = true) ∨
      (∃ c, s.data.getLast? = some c ∧ isJsSpace c = true)) : s ≠ jsTrim s := by
  have key : (jsTrim s).data.length < s.data.length := by
    rcases h with ⟨c, hc, hsp⟩ | ⟨c, hc, hsp⟩
    · cases hd : s.data with
      | nil => simp [hd] at hc
      | cons a rest =>
        simp [hd] at hc
        subst hc
        unfold jsTrim
        simp only [hd, List.dropWhile_cons, hsp, if_true, List.length_reverse]
        calc ((rest.dropWhile isJsSpace).reverse.dropWhile isJsSpace).length
            ≤ (rest.dropWhile isJsSpace).reverse.length := dropWhile_length_le _ _
          _ = (rest.dropWhile isJsSpace).length := List.length_reverse _
          _ ≤ rest.length := dropWhile_length_le _ _
          _ < (a :: rest).length := by simp
    · have hne : s.data ≠ [] := by
        intro e
        simp [e] at hc
      obtain ⟨t, ht⟩ := List.dropWhile_suffix (l := s.data) isJsSpace
      unfold jsTrim
      simp only [List.length_reverse]
      cases hl : (s.data.dropWhile isJsSpace).reverse with
      | nil =>
        simp only [List.dropWhile_nil, List.length_nil]
        exact List.length_pos.mpr hne
      | cons x xs =>
        have hrev : s.data.reverse = x :: (xs ++ t.reverse) := by
          rw [← ht, List.reverse_append, hl]
          rfl
        have hlast : s.data.getLast? = some x := by
          rw [List.getLast?_eq_head?_reverse, hrev]
          rfl
        rw [hc] at hlast
        cases hlast
        simp only [List.dropWhile_cons, hsp, if_true]
        have h1 : (xs.dropWhile isJsSpace).length ≤ xs.length := dropWhile_length_le _ _
        have h2 : (s.data.dropWhile isJsSpace).length ≤ s.data.length := dropWhile_length_le _ _
        have h3 : (s.data.dropWhile isJsSpace).length = xs.length + 1 := by
          rw [← List.length_reverse, hl]
          rfl
        omega
  intro e
  rw [← e] at key
  exact lt_irrefl _ key

theorem textRejected_or (t : JsVal) :
    textRejected t = true ∨ (∃ s, t = JsVal.str s ∧ jsTrim s ≠ "") ∨
      (truthy t = true ∧ ∀ s, t ≠ JsVal.str s) := by
  cases t with
  | undefined => simp [textRejected]
  | null => simp [textRejected]
  | bool b => cases b <;> simp [textRejected, truthy]
  | num n => by_cases h : n = 0 <;> simp [textRejected, truthy, h]
  | str s => by_cases h : jsTrim s = "" <;> simp [textRejected, h]
  | arr _ => simp [textRejected, truthy]
  | obj _ => simp [textRejected, truthy]

theorem trim_ne_truthy (s : String) (h : jsTrim s ≠ "") : truthy (JsVal.str s) = true := by
  by_cases hs : s = ""
  · subst hs
    exact absurd (by decide) h
  · simp [truthy, hs]

theorem list_rows (env : Env) (store : Store) (req : Request)
    (rows : List JsVal) (hm : req.method = "GET")
    (hp : env.parseURL req.url (baseOf req) = some "/api/lembretes")
    (hr : (store listQuery).rows = some rows) :
    Answers env store req ⟨200, corsHeaders, some (JsVal.obj [("success", JsVal.bool true),
      ("count", JsVal.num rows.length), ("data", JsVal.arr rows)])⟩ [listQuery] := by
  have hm' : req.method ≠ "OPTIONS" := by rw [hm]; decide
  unfold Answers responses queries escaped
  rw [run_routed env store req _ hm' hp, route_list env store req hm]
  unfold listQuery at hr
  cases hs : store (StoreOp.select "lembretes" "*" "created_at" false 50) with
  | rejected e => simp [hs, StoreOutcome.rows] at hr
  | nothing => simp [hs, StoreOutcome.rows] at hr
  | resolved d e =>
    cases d with
    | none => simp [hs, StoreOutcome.rows] at hr
    | some rows' =>
      by_cases he : truthy e = true
      · simp [hs, StoreOutcome.rows, he] at hr
      · simp [hs, StoreOutcome.rows, he] at hr
        subst hr
        simp [listLembretes, tryCatch, Eff.bind, awaitQuery, emit, hs, he, raise, status, sendJson,
          dataLength, dataVal, Step.state, sentOf, queriesOf, listQuery]

theorem list_mock (env : Env) (store : Store) (req : Request) (hm : req.method = "GET")
    (hp : env.parseURL req.url (baseOf req) = some "/api/lembretes")
    (hr : (store listQuery).rows = none) :
    Answers env store req ⟨200, corsHeaders, some (withData "Modo offline - usando dados mock"
      (JsVal.arr (mockRows (env.toISOString (env.clock 1)) (env.toISOString (env.clock 2)))))⟩
      [listQuery] := by
  have hm' : req.method ≠ "OPTIONS" := by rw [hm]; decide
  unfold Answers responses queries escaped
  rw [run_routed env store req _ hm' hp, route_list env store req hm]
  unfold listQuery at hr
  cases hs : store (StoreOp.select "lembretes" "*" "created_at" false 50) with
  | rejected e =>
    simp [listLembretes, tryCatch, Eff.bind, awaitQuery, emit, hs, raise, status, sendJson,
      newDateISO, readClock, Step.state, sentOf, queriesOf, listQuery, withData]
  | nothing =>
    simp [listLembretes, tryCatch, Eff.bind, awaitQuery, emit, hs, raise, status, sendJson,
      newDateISO, readClock, Step.state, sentOf, queriesOf, listQuery, withData]
  | resolved d e =>
    by_cases he : truthy e = true
    · simp [listLembretes, tryCatch, Eff.bind, awaitQuery, emit, hs, he, raise, status, sendJson,
        newDateISO, readClock, Step.state, sentOf, queriesOf, listQuery, withData]
    · cases d with
      | some rows => simp [hs, StoreOutcome.rows, he] at hr
      | none =>
        simp [listLembretes, tryCatch, Eff.bind, awaitQuery, emit, hs, he, raise, status, sendJson,
          dataLength, newDateISO, readClock, Step.state, sentOf, queriesOf, listQuery, withData]

theorem getProp_not_nullish (v : JsVal) (k : String) (h : getProp v k ≠ JsVal.undefined) :
    nullish v = false := by
  cases v <;> simp [getProp, ownProps, ownGet, nullish] at h ⊢

theorem create_no_body (env : Env) (store : Store) (req : Request) (hm : req.method = "POST")
    (hp : env.parseURL req.url (baseOf req) = some "/api/lembretes")
    (hb : nullish req.body = true) :
    responses env store req = [] ∧ queries env store req = [] ∧ escaped env store req = true := by
  have hm' : req.method ≠ "OPTIONS" := by rw [hm]; decide
  unfold responses queries escaped
  rw [run_routed env store req _ hm' hp, route_create env store req hm]
  simp [createLembrete, tryCatch, Eff.bind, requireObject, hb, raise, emit, status, readClock,
    Step.state, sentOf, queriesOf]

theorem create_rejected (env : Env) (store : Store) (req : Request) (hm : req.method = "POST")
    (hp : env.parseURL req.url (baseOf req) = some "/api/lembretes")
    (hb : nullish req.body = false)
    (ht : textRejected (getProp req.body "texto") = true) :
    Answers env store req ⟨400, corsHeaders, some (JsVal.obj [("success", JsVal.bool false),
      ("message", JsVal.str "Texto do lembrete é obrigatório")])⟩ [] := by
  have hm' : req.method ≠ "OPTIONS" := by rw [hm]; decide
  unfold Answers responses queries escaped
  rw [run_routed env store req _ hm' hp, route_create env store req hm]
  cases hg : getProp req.body "texto" with
  | bool b =>
    rw [hg] at ht
    cases b <;> simp [textRejected] at ht
    simp [createLembrete, tryCatch, Eff.bind, requireObject, hb, hg, truthy, status, sendJson,
      Step.state, sentOf, queriesOf]
  | num n =>
    rw [hg] at ht
    simp [textRejected] at ht
    simp [createLembrete, tryCatch, Eff.bind, requireObject, hb, hg, truthy, ht, status, sendJson,
      Step.state, sentOf, queriesOf]
  | str s =>
    rw [hg] at ht
    simp [textRejected] at ht
    by_cases hs : s = ""
    · simp [createLembrete, tryCatch, Eff.bind, requireObject, hb, hg, truthy, hs, status,
        sendJson, Step.state, sentOf, queriesOf]
    · simp [createLembrete, tryCatch, Eff.bind, requireObject, hb, hg, truthy, hs, ht, callTrim,
        status, sendJson, Step.state, sentOf, queriesOf]
  | undefined =>
    simp [createLembrete, tryCatch, Eff.bind, requireObject, hb, hg, truthy, status, sendJson,
      Step.state, sentOf, queriesOf]
  | null =>
    simp [createLembrete, tryCatch, Eff.bind, requireObject, hb, hg, truthy, status, sendJson,
      Step.state, sentOf, queriesOf]
  | arr _ =>
    rw [hg] at ht
    simp [textRejected] at ht
  | obj _ =>
    rw [hg] at ht
    simp [textRejected] at ht

theorem create_not_string (env : Env) (store : Store) (req : Request) (hm : req.method = "POST")
    (hp : env.parseURL req.url (baseOf req) = some "/api/lembretes")
    (hb : nullish req.body = false)
    (ht : truthy (getProp req.body "texto") = true)
    (hns : ∀ s, getProp req.body "texto" ≠ JsVal.str s) :
    Answers env store req ⟨201, corsHeaders, some (withData "Lembrete salvo localmente (modo offline)"
      (JsVal.obj [("id", JsVal.num (env.clock 1)), ("texto", getProp req.body "texto"),
        ("created_at", JsVal.str (env.toISOString (env.clock 2))),
        ("status", JsVal.str "ativo")]))⟩ [] := by
  have hm' : req.method ≠ "OPTIONS" := by rw [hm]; decide
  unfold Answers responses queries escaped
  rw [run_routed env store req _ hm' hp, route_create env store req hm]
  cases hg : getProp req.body "texto" with
  | str s => exact absurd hg (hns s)
  | undefined => simp [hg, truthy] at ht
  | null => simp [hg, truthy] at ht
  | bool b =>
    rw [hg] at ht
    simp [createLembrete, tryCatch, Eff.bind, requireObject, hb, hg, ht, callTrim, raise, emit,
      status, sendJson, readClock, newDateISO, Step.state, sentOf, queriesOf, withData]
  | num n =>
    rw [hg] at ht
    simp [createLembrete, tryCatch, Eff.bind, requireObject, hb, hg, ht, callTrim, raise, emit,
      status, sendJson, readClock, newDateISO, Step.state, sentOf, queriesOf, withData]
  | arr _ =>
    rw [hg] at ht
    simp [createLembrete, tryCatch, Eff.bind, requireObject, hb, hg, ht, callTrim, raise, emit,
      status, sendJson, readClock, newDateISO, Step.state, sentOf, queriesOf, withData]
  | obj _ =>
    rw [hg] at ht
    simp [createLembrete, tryCatch, Eff.bind, requireObject, hb, hg, ht, callTrim, raise, emit,
      status, sendJson, readClock, newDateISO, Step.state, sentOf, queriesOf, withData]

theorem create_stored (env : Env) (store : Store) (req : Request)
    (s : String) (rows : List JsVal) (hm : req.method = "POST")
    (hp : env.parseURL req.url (baseOf req) = some "/api/lembretes")
    (ht : getProp req.body "texto" = JsVal.str s) (hs : jsTrim s ≠ "")
    (hr : (store (insertQuery env (jsTrim s) (getProp req.body "userId"))).rows = some rows) :
    Answers env store req ⟨201, corsHeaders, some (withData "Lembrete criado com sucesso!"
      (rows.head?.getD JsVal.undefined))⟩
      [insertQuery env (jsTrim s) (getProp req.body "userId")] := by
  have hm' : req.method ≠ "OPTIONS" := by rw [hm]; decide
  have hb : nullish req.body = false := getProp_not_nullish _ "texto" (by rw [ht]; simp)
  have htr := trim_ne_truthy s hs
  unfold Answers responses queries escaped
  rw [run_routed env store req _ hm' hp, route_create env store req hm]
  unfold insertQuery at hr ⊢
  cases hq : store (StoreOp.insert "lembretes"
      [lembreteRow (jsTrim s) (getProp req.body "userId") (env.toISOString (env.clock 1))]) with
  | rejected e => simp [hq, StoreOutcome.rows] at hr
  | nothing => simp [hq, StoreOutcome.rows] at hr
  | resolved d e =>
    cases d with
    | none => simp [hq, StoreOutcome.rows] at hr
    | some rows' =>
      by_cases he : truthy e = true
      · simp [hq, StoreOutcome.rows, he] at hr
      · simp [hq, StoreOutcome.rows, he] at hr
        subst hr
        simp [createLembrete, tryCatch, Eff.bind, requireObject, hb, ht, htr, hs, callTrim,
          awaitQuery, hq, he, dataFirst, raise, emit, status, sendJson, readClock, newDateISO,
          Step.state, sentOf, queriesOf, withData]

theorem create_fallback (env : Env) (store : Store) (req : Request)
    (s : String) (hm : req.method = "POST")
    (hp : env.parseURL req.url (baseOf req) = some "/api/lembretes")
    (ht : getProp req.body "texto" = JsVal.str s) (hs : jsTrim s ≠ "")
    (hr : (store (insertQuery env (jsTrim s) (getProp req.body "userId"))).rows = none) :
    Answers env store req ⟨201, corsHeaders, some (withData "Lembrete salvo localmente (modo offline)"
      (JsVal.obj [("id", JsVal.num (env.clock 2)), ("texto", JsVal.str s),
        ("created_at", JsVal.str (env.toISOString (env.clock 3))),
        ("status", JsVal.str "ativo")]))⟩
      [insertQuery env (jsTrim s) (getProp req.body "userId")] := by
  have hm' : req.method ≠ "OPTIONS" := by rw [hm]; decide
  have hb : nullish req.body = false := getProp_not_nullish _ "texto" (by rw [ht]; simp)
  have htr := trim_ne_truthy s hs
  unfold Answers responses queries escaped
  rw [run_routed env store req _ hm' hp, route_create env store req hm]
  unfold insertQuery at hr ⊢
  cases hq : store (StoreOp.insert "lembretes"
      [lembreteRow (jsTrim s) (getProp req.body "userId") (env.toISOString (env.clock 1))]) with
  | rejected e =>
    simp [createLembrete, tryCatch, Eff.bind, requireObject, hb, ht, htr, hs, callTrim,
      awaitQuery, hq, raise, emit, status, sendJson, readClock, newDateISO,
      Step.state, sentOf, queriesOf, withData]
  | nothing =>
    simp [createLembrete, tryCatch, Eff.bind, requireObject, hb, ht, htr, hs, callTrim,
      awaitQuery, hq, raise, emit, status, sendJson, readClock, newDateISO,
      Step.state, sentOf, queriesOf, withData]
  | resolved d e =>
    by_cases he : truthy e = true
    · simp [createLembrete, tryCatch, Eff.bind, requireObject, hb, ht, htr, hs, callTrim,
        awaitQuery, hq, he, raise, emit, status, sendJson, readClock, newDateISO,
        Step.state, sentOf, queriesOf, withData]
    · cases d with
      | some rows => simp [hq, StoreOutcome.rows, he] at hr
      | none =>
        simp [createLembrete, tryCatch, Eff.bind, requireObject, hb, ht, htr, hs, callTrim,
          awaitQuery, hq, he, dataFirst, raise, emit, status, sendJson, readClock, newDateISO,
          Step.state, sentOf, queriesOf, withData]

theorem update_no_body (env : Env) (store : Store) (req : Request)
    (p : String) (hm : req.method = "PUT")
    (hp : env.parseURL req.url (baseOf req) = some p)
    (hpre : jsStartsWith p "/api/lembretes/" = true) (hb : nullish req.body = true) :
    Answers env store req ⟨200, corsHeaders, some (withData "Atualização simulada (offline)"
      (JsVal.obj (spreadInto [("id", strAt (jsSplit p '/') 3)] req.body)))⟩ [] := by
  have hm' : req.method ≠ "OPTIONS" := by rw [hm]; decide
  unfold Answers responses queries escaped
  rw [run_routed env store req _ hm' hp, route_update env store req p hm hpre]
  simp [updateLembrete, tryCatch, Eff.bind, requireObject, hb, raise, status, sendJson,
    Step.state, sentOf, queriesOf, withData]

theorem update_stored (env : Env) (store : Store) (req : Request)
    (p : String) (rows : List JsVal) (hm : req.method = "PUT")
    (hp : env.parseURL req.url (baseOf req) = some p)
    (hpre : jsStartsWith p "/api/lembretes/" = true) (hb : nullish req.body = false)
    (hr : (store (updateQuery env (strAt (jsSplit p '/') 3) req.body)).rows = some rows) :
    Answers env store req ⟨200, corsHeaders, some (withData "Lembrete atualizado"
      (rows.head?.getD JsVal.undefined))⟩ [updateQuery env (strAt (jsSplit p '/') 3) req.body] := by
  have hm' : req.method ≠ "OPTIONS" := by rw [hm]; decide
  unfold Answers responses queries escaped
  rw [run_routed env store req _ hm' hp, route_update env store req p hm hpre]
  unfold updateQuery at hr ⊢
  cases hq : store (StoreOp.update "lembretes"
      (JsVal.obj [("texto", getProp req.body "texto"), ("status", getProp req.body "status"),
        ("updated_at", JsVal.str (env.toISOString (env.clock 1)))]) "id"
      (strAt (jsSplit p '/') 3)) with
  | rejected e => simp [hq, StoreOutcome.rows] at hr
  | nothing => simp [hq, StoreOutcome.rows] at hr
  | resolved d e =>
    cases d with
    | none => simp [hq, StoreOutcome.rows] at hr
    | some rows' =>
      by_cases he : truthy e = true
      · simp [hq, StoreOutcome.rows, he] at hr
      · simp [hq, StoreOutcome.rows, he] at hr
        subst hr
        simp [updateLembrete, tryCatch, Eff.bind, requireObject, hb, awaitQuery, hq, he,
          dataFirst, raise, emit, status, sendJson, readClock, newDateISO,
          Step.state, sentOf, queriesOf, withData]

theorem update_fallback (env : Env) (store : Store) (req : Request)
    (p : String) (hm : req.method = "PUT")
    (hp : env.parseURL req.url (baseOf req) = some p)
    (hpre : jsStartsWith p "/api/lembretes/" = true) (hb : nullish req.body = false)
    (hr : (store (updateQuery env (strAt (jsSplit p '/') 3) req.body)).rows = none) :
    Answers env store req ⟨200, corsHeaders, some (withData "Atualização simulada (offline)"
      (JsVal.obj (spreadInto [("id", strAt (jsSplit p '/') 3)] req.body)))⟩
      [updateQuery env (strAt (jsSplit p '/') 3) req.body] := by
  have hm' : req.method ≠ "OPTIONS" := by rw [hm]; decide
  unfold Answers responses queries escaped
  rw [run_routed env store req _ hm' hp, route_update env store req p hm hpre]
  unfold updateQuery at hr ⊢
  cases hq : store (StoreOp.update "lembretes"
      (JsVal.obj [("texto", getProp req.body "texto"), ("status", getProp req.body "status"),
        ("updated_at", JsVal.str (env.toISOString (env.clock 1)))]) "id"
      (strAt (jsSplit p '/') 3)) with
  | rejected e =>
    simp [updateLembrete, tryCatch, Eff.bind, requireObject, hb, awaitQuery, hq,
      raise, emit, status, sendJson, readClock, newDateISO, Step.state, sentOf, queriesOf, withData]
  | nothing =>
    simp [updateLembrete, tryCatch, Eff.bind, requireObject, hb, awaitQuery, hq,
      raise, emit, status, sendJson, readClock, newDateISO, Step.state, sentOf, queriesOf, withData]
  | resolved d e =>
    by_cases he : truthy e = true
    · simp [updateLembrete, tryCatch, Eff.bind, requireObject, hb, awaitQuery, hq, he,
        raise, emit, status, sendJson, readClock, newDateISO, Step.state, sentOf, queriesOf,
        withData]
    · cases d with
      | some rows => simp [hq, StoreOutcome.rows, he] at hr
      | none =>
        simp [updateLembrete, tryCatch, Eff.bind, requireObject, hb, awaitQuery, hq, he,
          dataFirst, raise, emit, status, sendJson, readClock, newDateISO, Step.state, sentOf,
          queriesOf, withData]

theorem delete_fallback (env : Env) (store : Store) (req : Request)
    (p : String) (hm : req.method = "DELETE")
    (hp : env.parseURL req.url (baseOf req) = some p)
    (hpre : jsStartsWith p "/api/lembretes/" = true)
    (hf : (store (deleteQuery (strAt (jsSplit p '/') 3))).failed = true) :
    Answers env store req ⟨200, corsHeaders, some (JsVal.obj [("success", JsVal.bool true),
      ("message", JsVal.str "Exclusão simulada (offline)"), ("id", strAt (jsSplit p '/') 3)])⟩
      [deleteQuery (strAt (jsSplit p '/') 3)] := by
  have hm' : req.method ≠ "OPTIONS" := by rw [hm]; decide
  unfold Answers responses queries escaped
  rw [run_routed env store req _ hm' hp, route_delete env store req p hm hpre]
  unfold deleteQuery at hf ⊢
  cases hq : store (StoreOp.delete "lembretes" "id" (strAt (jsSplit p '/') 3)) with
  | rejected e =>
    simp [deleteLembrete, tryCatch, Eff.bind, awaitQuery, hq, raise, emit, status, sendJson,
      Step.state, sentOf, queriesOf]
  | nothing =>
    simp [deleteLembrete, tryCatch, Eff.bind, awaitQuery, hq, raise, emit, status, sendJson,
      Step.state, sentOf, queriesOf]
  | resolved d e =>
    simp [hq, StoreOutcome.failed] at hf
    simp [deleteLembrete, tryCatch, Eff.bind, awaitQuery, hq, hf, raise, emit, status, sendJson,
      Step.state, sentOf, queriesOf]

theorem delete_done (env : Env) (store : Store) (req : Request)
    (p : String) (hm : req.method = "DELETE")
    (hp : env.parseURL req.url (baseOf req) = some p)
    (hpre : jsStartsWith p "/api/lembretes/" = true)
    (hf : (store (deleteQuery (strAt (jsSplit p '/') 3))).failed = false) :
    Answers env store req ⟨200, corsHeaders, some (JsVal.obj [("success", JsVal.bool true),
      ("message", JsVal.str "Lembrete excluído")])⟩
      [deleteQuery (strAt (jsSplit p '/') 3)] := by
  have hm' : req.method ≠ "OPTIONS" := by rw [hm]; decide
  unfold Answers responses queries escaped
  rw [run_routed env store req _ hm' hp, route_delete env store req p hm hpre]
  unfold deleteQuery at hf ⊢
  cases hq : store (StoreOp.delete "lembretes" "id" (strAt (jsSplit p '/') 3)) with
  | rejected e => simp [hq, StoreOutcome.failed] at hf
  | nothing => simp [hq, StoreOutcome.failed] at hf
  | resolved d e =>
    simp [hq, StoreOutcome.failed] at hf
    simp [deleteLembrete, tryCatch, Eff.bind, awaitQuery, hq, hf, raise, emit, status, sendJson,
      Step.state, sentOf, queriesOf]

theorem not_found_answers (env : Env) (store : Store) (req : Request)
    (p : String) (hm : req.method ≠ "OPTIONS")
    (hp : env.parseURL req.url (baseOf req) = some p)
    (hr : routedByCode req.method p = false) :
    Answers env store req ⟨404, corsHeaders, some (JsVal.obj [("success", JsVal.bool false),
      ("message", JsVal.str "Rota não encontrada"), ("path", JsVal.str p)])⟩ [] := by
  unfold Answers responses queries escaped
  rw [run_routed env store req _ hm hp, route_not_found env store req p hr]
  simp [notFound, Eff.bind, status, sendJson, Step.state, sentOf, queriesOf]

theorem health_answers (env : Env) (store : Store) (req : Request)
    (p : String) (hm : req.method = "GET")
    (hp : env.parseURL req.url (baseOf req) = some p) (hpath : p = "/" ∨ p = "/api") :
    Answers env store req ⟨200, corsHeaders, some (healthBody (env.toISOString (env.clock 1)))⟩
      [] := by
  have hm' : req.method ≠ "OPTIONS" := by rw [hm]; decide
  unfold Answers responses queries escaped
  rw [run_routed env store req _ hm' hp, route_health env store req p hm hpath]
  simp [health, Eff.bind, status, sendJson, readClock, newDateISO, Step.state, sentOf, queriesOf]

theorem options_answers (env : Env) (store : Store) (req : Request) (hm : req.method = "OPTIONS") :
    Answers env store req ⟨200, corsHeaders, none⟩ [] := by
  unfold Answers responses queries escaped
  rw [run_options env store req hm]
  simp [Step.state, sentOf, queriesOf]

theorem bad_url_escapes (env : Env) (store : Store) (req : Request) (hm : req.method ≠ "OPTIONS")
    (hp : env.parseURL req.url (baseOf req) = none) :
    responses env store req = [] ∧ queries env store req = [] ∧ escaped env store req = true := by
  unfold responses queries escaped
  rw [run_bad_url env store req hm hp]
  simp [Step.state, sentOf, queriesOf]


/-! ## Every invocation, classified -/

theorem routedByCode_cases (m p : String) (h : routedByCode m p = true) :
    (m = "GET" ∧ (p = "/" ∨ p = "/api")) ∨ (m = "GET" ∧ p = "/api/lembretes") ∨
    (m = "POST" ∧ p = "/api/lembretes") ∨
    (m = "PUT" ∧ jsStartsWith p "/api/lembretes/" = true) ∨
    (m = "DELETE" ∧ jsStartsWith p "/api/lembretes/" = true) := by
  simp only [routedByCode, Bool.or_eq_true, Bool.and_eq_true, beq_iff_eq] at h
  rcases h with (⟨hm, (hp | hp) | hp⟩ | ⟨hm, hp⟩) | ⟨hm | hm, hp⟩
  · exact Or.inl ⟨hm, Or.inl hp⟩
  · exact Or.inl ⟨hm, Or.inr hp⟩
  · exact Or.inr (Or.inl ⟨hm, hp⟩)
  · exact Or.inr (Or.inr (Or.inl ⟨hm, hp⟩))
  · exact Or.inr (Or.inr (Or.inr (Or.inl ⟨hm, hp⟩)))
  · exact Or.inr (Or.inr (Or.inr (Or.inr ⟨hm, hp⟩)))

theorem sent_of_answers {env : Env} {store : Store} {req : Request} {b : Option JsVal}
    {qs : List StoreOp} {code : Nat} (h : Answers env store req ⟨code, corsHeaders, b⟩ qs)
    (hc : code = 200 ∨ code = 201) : Sent env store req := by
  refine ⟨h.2.2, _, h.1, rfl, ?_, ?_, ?_⟩
  · rcases hc with hc | hc
    · exact Or.inl hc
    · exact Or.inr (Or.inl hc)
  · intro h4
    rcases hc with hc | hc <;> subst hc <;> simp at h4
  · intro h4
    rcases hc with hc | hc <;> subst hc <;> simp at h4

/-- Every invocation either sends exactly one response and returns, or is left
by an exception before sending anything. -/
theorem handler_outcome (env : Env) (store : Store) (req : Request) :
    Sent env store req ∨ Escaped env store req := by
  by_cases hm : req.method = "OPTIONS"
  · exact Or.inl (sent_of_answers (options_answers env store req hm) (Or.inl rfl))
  cases hp : env.parseURL req.url (baseOf req) with
  | none =>
    have h := bad_url_escapes env store req hm hp
    exact Or.inr ⟨h.2.2, h.1, hm, Or.inl hp⟩
  | some p =>
    cases hr : routedByCode req.method p with
    | false =>
      have h := not_found_answers env store req p hm hp hr
      refine Or.inl ⟨h.2.2, _, h.1, rfl, Or.inr (Or.inr (Or.inr rfl)), ?_, ?_⟩
      · intro h4
        simp at h4
      · intro _
        exact ⟨p, hp, hr⟩
    | true =>
      rcases routedByCode_cases _ _ hr with ⟨hg, hpath⟩ | ⟨hg, hpath⟩ | ⟨hg, hpath⟩ |
        ⟨hg, hpre⟩ | ⟨hg, hpre⟩
      · exact Or.inl (sent_of_answers (health_answers env store req p hg hp hpath) (Or.inl rfl))
      · subst hpath
        cases hrows : (store listQuery).rows with
        | some rows =>
          exact Or.inl (sent_of_answers (list_rows env store req rows hg hp hrows) (Or.inl rfl))
        | none =>
          exact Or.inl (sent_of_answers (list_mock env store req hg hp hrows) (Or.inl rfl))
      · subst hpath
        cases hb : nullish req.body with
        | true =>
          have h := create_no_body env store req hg hp hb
          exact Or.inr ⟨h.2.2, h.1, hm, Or.inr ⟨hg, hp, hb⟩⟩
        | false =>
          rcases textRejected_or (getProp req.body "texto") with ht | ⟨s, ht, hs⟩ | ⟨ht, hns⟩
          · have h := create_rejected env store req hg hp hb ht
            refine Or.inl ⟨h.2.2, _, h.1, rfl, Or.inr (Or.inr (Or.inl rfl)), ?_, ?_⟩
            · intro _
              exact ⟨hg, hp, ht, rfl⟩
            · intro h4
              simp at h4
          · cases hrows : (store (insertQuery env (jsTrim s) (getProp req.body "userId"))).rows with
            | some rows =>
              exact Or.inl (sent_of_answers
                (create_stored env store req s rows hg hp ht hs hrows) (Or.inr rfl))
            | none =>
              exact Or.inl (sent_of_answers
                (create_fallback env store req s hg hp ht hs hrows) (Or.inr rfl))
          · exact Or.inl (sent_of_answers
              (create_not_string env store req hg hp hb ht hns) (Or.inr rfl))
      · cases hb : nullish req.body with
        | true =>
          exact Or.inl (sent_of_answers (update_no_body env store req p hg hp hpre hb) (Or.inl rfl))
        | false =>
          cases hrows : (store (updateQuery env (strAt (jsSplit p '/') 3) req.body)).rows with
          | some rows =>
            exact Or.inl (sent_of_answers
              (update_stored env store req p rows hg hp hpre hb hrows) (Or.inl rfl))
          | none =>
            exact Or.inl (sent_of_answers
              (update_fallback env store req p hg hp hpre hb hrows) (Or.inl rfl))
      · cases hf : (store (deleteQuery (strAt (jsSplit p '/') 3))).failed with
        | true =>
          exact Or.inl (sent_of_answers (delete_fallback env store req p hg hp hpre hf) (Or.inl rfl))
        | false =>
          exact Or.inl (sent_of_answers (delete_done env store req p hg hp hpre hf) (Or.inl rfl))

theorem failed_rows (o : StoreOutcome) (h : o.failed = true) : o.rows = none := by
  cases o with
  | rejected e => rfl
  | nothing => rfl
  | resolved d e =>
    simp only [StoreOutcome.failed] at h
    cases d <;> simp [StoreOutcome.rows, h]

/-! ## C1: one response per request -/

/-- C1 (defect): a `POST /api/lembretes` request that carries no body (`req.body`
is `undefined` or `null`) is left by an exception and sends no response, whatever
the store does: the destructuring in the `try` block throws, and the `catch`
block reads `req.body.texto`, which throws again outside any handler. -/
theorem create_without_body_escapes (env : Env) (store : Store) (req : Request)
    (hm : req.method = "POST")
    (hp : env.parseURL req.url (baseOf req) = some "/api/lembretes")
    (hb : nullish req.body = true) :
    escaped env store req = true ∧ responses env store req = [] := by
  have h := create_no_body env store req hm hp hb
  exact ⟨h.2.2, h.1⟩

theorem create_without_body_escapes_witness :
    escaped sampleEnv upStore (mkReq "POST" "/api/lembretes" JsVal.undefined) = true ∧
      responses sampleEnv upStore (mkReq "POST" "/api/lembretes" JsVal.undefined) = [] :=
  create_without_body_escapes sampleEnv upStore
    (mkReq "POST" "/api/lembretes" JsVal.undefined) rfl rfl rfl

/-! ## C2: the routing table -/

/-- C2 (counterexample): `PUT /api/lembretes/42/extra` is not in the routing
table as worded (its tail is not a single segment), yet it is routed to update
with id `42` and answered 200, not 404. -/
theorem update_extra_segment_routed :
    inRoutingTable "PUT" "/api/lembretes/42/extra" = false ∧
    responses sampleEnv downStore
        (mkReq "PUT" "/api/lembretes/42/extra" (JsVal.obj [("texto", JsVal.str "x")])) =
      [⟨200, corsHeaders, some (withData "Atualização simulada (offline)"
        (JsVal.obj [("id", JsVal.str "42"), ("texto", JsVal.str "x")]))⟩] := by
  constructor
  · decide
  · rfl

/-- The first piece of a split is what precedes the first separator. -/
theorem splitChars_head (sep : Char) (t : List Char) :
    ∃ tl, splitChars sep t = t.takeWhile (fun c => c != sep) :: tl := by
  induction t with
  | nil => exact ⟨[], rfl⟩
  | cons c cs ih =>
    obtain ⟨tl, htl⟩ := ih
    by_cases h : c = sep
    · subst h
      exact ⟨splitChars c cs, by simp [splitChars]⟩
    · exact ⟨tl, by simp [splitChars, h, htl]⟩

theorem sep_not_mem_takeWhile (sep : Char) (t : List Char) :
    sep ∉ t.takeWhile (fun c => c != sep) := by
  intro hmem
  have := List.mem_takeWhile_imp hmem
  simp at this

/-- On a path that starts with `/api/lembretes/` the id extracted by
`pathname.split('/')[3]` is the segment that follows the prefix. -/
theorem id_is_first_segment (p : String) (h : jsStartsWith p "/api/lembretes/" = true) :
    strAt (jsSplit p '/') 3 = JsVal.str (firstSegment p) := by
  unfold jsStartsWith at h
  obtain ⟨t, ht⟩ := List.isPrefixOf_iff_prefix.mp h
  have hdrop : p.data.drop 15 = t := by
    rw [← ht]
    exact List.drop_left' (by decide)
  obtain ⟨tl, htl⟩ := splitChars_head '/' t
  unfold strAt jsSplit firstSegment
  rw [hdrop, ← ht, splitChars_lembretes, htl]
  simp

/-- The segments after the id play no part: update and delete on a path are
update and delete on the path cut after its first segment. -/
theorem further_segments_ignored (env : Env) (store : Store) (req : Request) (p : String)
    (h : jsStartsWith p "/api/lembretes/" = true) :
    updateLembrete env store req p =
      updateLembrete env store req ("/api/lembretes/" ++ firstSegment p) ∧
    deleteLembrete store p = deleteLembrete store ("/api/lembretes/" ++ firstSegment p) := by
  have h1 := id_is_first_segment p h
  have h2 : strAt (jsSplit ("/api/lembretes/" ++ firstSegment p) '/') 3 =
      JsVal.str (firstSegment p) := by
    have := id_of_path (firstSegment p) "" (sep_not_mem_takeWhile '/' _) (Or.inl rfl)
    simpa using this
  constructor
  · unfold updateLembrete
    rw [h1, h2]
  · unfold deleteLembrete
    rw [h1, h2]

/-- C2 (amended): the routes are matched by prefix for update and delete. For a
request that is not a preflight and whose path is `p`: if (method, `p`) is not
one of (GET, `/`), (GET, `/api`), (GET, `/api/lembretes`), (POST,
`/api/lembretes`), (PUT, any path starting with `/api/lembretes/`), (DELETE, any
path starting with `/api/lembretes/`), the response is 404 with success=false, a
message and `path` equal to `p`; if it is one of them, no response is a 404; and
every entry of the table as the specification words it is among them. Every
request of the table is routed to its operation: the invocation is, from the
state in which routing starts, the health check (which answers the health body
and queries nothing), list (which issues the select), create (which, for an
accepted text, issues the insert), update or delete (which query the store for
the id of the path). For update and delete that id is the first segment after
`/api/lembretes/`, and further segments are ignored. -/
theorem routing_matches_prefixes (env : Env) (store : Store) (req : Request) (p : String)
    (hm : req.method ≠ "OPTIONS") (hp : env.parseURL req.url (baseOf req) = some p) :
    (routedByCode req.method p = false →
      responses env store req = [⟨404, corsHeaders, some (JsVal.obj [
        ("success", JsVal.bool false), ("message", JsVal.str "Rota não encontrada"),
        ("path", JsVal.str p)])⟩] ∧ escaped env store req = false) ∧
    (routedByCode req.method p = true → ∀ r ∈ responses env store req, r.status ≠ 404) ∧
    (inRoutingTable req.method p = true → routedByCode req.method p = true) ∧
    (req.method = "GET" → p = "/" ∨ p = "/api" →
      run env store req = health env (routingState env req) ∧
      responses env store req =
        [⟨200, corsHeaders, some (healthBody (env.toISOString (env.clock 1)))⟩] ∧
      queries env store req = []) ∧
    (req.method = "GET" → p = "/api/lembretes" →
      run env store req = listLembretes env store (routingState env req) ∧
      queries env store req = [listQuery]) ∧
    (req.method = "POST" → p = "/api/lembretes" →
      run env store req = createLembrete env store req (routingState env req) ∧
      ∀ s, getProp req.body "texto" = JsVal.str s → jsTrim s ≠ "" →
        queries env store req = [insertQuery env (jsTrim s) (getProp req.body "userId")]) ∧
    (req.method = "PUT" → jsStartsWith p "/api/lembretes/" = true →
      run env store req = updateLembrete env store req p (routingState env req) ∧
      (nullish req.body = false →
        queries env store req = [updateQuery env (JsVal.str (firstSegment p)) req.body])) ∧
    (req.method = "DELETE" → jsStartsWith p "/api/lembretes/" = true →
      run env store req = deleteLembrete store p (routingState env req) ∧
      queries env store req = [deleteQuery (JsVal.str (firstSegment p))]) ∧
    (jsStartsWith p "/api/lembretes/" = true →
      strAt (jsSplit p '/') 3 = JsVal.str (firstSegment p) ∧
      updateLembrete env store req p =
        updateLembrete env store req ("/api/lembretes/" ++ firstSegment p) ∧
      deleteLembrete store p = deleteLembrete store ("/api/lembretes/" ++ firstSegment p)) := by
  have hrun := run_routed env store req p hm hp
  refine ⟨?_, ?_, ?_, ?_, ?_, ?_, ?_, ?_, ?_⟩
  · intro hr
    have h := not_found_answers env store req p hm hp hr
    exact ⟨h.1, h.2.2⟩
  · intro hr r hmem h404
    rcases handler_outcome env store req with ⟨_, r', hresp, _, _, _, h4⟩ | ⟨_, hresp, _⟩
    · rw [hresp] at hmem
      simp only [List.mem_singleton] at hmem
      subst hmem
      obtain ⟨p', hp', hr'⟩ := h4 h404
      rw [hp] at hp'
      cases hp'
      rw [hr] at hr'
      cases hr'
    · rw [hresp] at hmem
      cases hmem
  · intro ht
    simp only [inRoutingTable, routedByCode, Bool.or_eq_true, Bool.and_eq_true, beq_iff_eq]
      at ht ⊢
    rcases ht with (h | h) | ⟨⟨h1, h2⟩, _⟩
    · exact Or.inl (Or.inl h)
    · exact Or.inl (Or.inr h)
    · exact Or.inr ⟨h1, h2⟩
  · intro hg hpath
    have h := health_answers env store req p hg hp hpath
    refine ⟨?_, h.1, h.2.1⟩
    rw [hrun, route_health env store req p hg hpath]
    rfl
  · intro hg hpath
    subst hpath
    refine ⟨?_, ?_⟩
    · rw [hrun, route_list env store req hg]
      rfl
    · cases hrows : (store listQuery).rows with
      | some rows => exact (list_rows env store req rows hg hp hrows).2.1
      | none => exact (list_mock env store req hg hp hrows).2.1
  · intro hg hpath
    subst hpath
    refine ⟨?_, ?_⟩
    · rw [hrun, route_create env store req hg]
      rfl
    · intro s ht hs
      cases hrows : (store (insertQuery env (jsTrim s) (getProp req.body "userId"))).rows with
      | some rows => exact (create_stored env store req s rows hg hp ht hs hrows).2.1
      | none => exact (create_fallback env store req s hg hp ht hs hrows).2.1
  · intro hg hpre
    have hid := id_is_first_segment p hpre
    refine ⟨?_, ?_⟩
    · rw [hrun, route_update env store req p hg hpre]
      rfl
    · intro hb
      cases hrows : (store (updateQuery env (JsVal.str (firstSegment p)) req.body)).rows with
      | some rows =>
        have h := update_stored env store req p rows hg hp hpre hb (by rw [hid]; exact hrows)
        rw [hid] at h
        exact h.2.1
      | none =>
        have h := update_fallback env store req p hg hp hpre hb (by rw [hid]; exact hrows)
        rw [hid] at h
        exact h.2.1
  · intro hg hpre
    have hid := id_is_first_segment p hpre
    refine ⟨?_, ?_⟩
    · rw [hrun, route_delete env store req p hg hpre]
      rfl
    · cases hf : (store (deleteQuery (JsVal.str (firstSegment p)))).failed with
      | true =>
        have h := delete_fallback env store req p hg hp hpre (by rw [hid]; exact hf)
        rw [hid] at h
        exact h.2.1
      | false =>
        have h := delete_done env store req p hg hp hpre (by rw [hid]; exact hf)
        rw [hid] at h
        exact h.2.1
  · intro hpre
    exact ⟨id_is_first_segment p hpre, further_segments_ignored env store req p hpre⟩

theorem routing_matches_prefixes_witness :
    (responses sampleEnv downStore (mkReq "PATCH" "/api/lembretes/7" JsVal.undefined) =
      [⟨404, corsHeaders, some (JsVal.obj [
        ("success", JsVal.bool false), ("message", JsVal.str "Rota não encontrada"),
        ("path", JsVal.str "/api/lembretes/7")])⟩] ∧
    escaped sampleEnv downStore (mkReq "PATCH" "/api/lembretes/7" JsVal.undefined) = false) ∧
    queries sampleEnv upStore (mkReq "DELETE" "/api/lembretes/7/extra" JsVal.undefined) =
      [StoreOp.delete "lembretes" "id" (JsVal.str "7")] :=
  ⟨(routing_matches_prefixes sampleEnv downStore
      (mkReq "PATCH" "/api/lembretes/7" JsVal.undefined)
      "/api/lembretes/7" (by decide) rfl).1 (by decide),
   ((routing_matches_prefixes sampleEnv upStore
      (mkReq "DELETE" "/api/lembretes/7/extra" JsVal.undefined)
      "/api/lembretes/7/extra" (by decide) rfl).2.2.2.2.2.2.2.1 rfl (by decide)).2⟩

/-! ## C3: the 400 answer -/

/-- C3 (counterexample): a create whose `texto` is the number 0, a value that is
neither absent, nor empty, nor whitespace-only text, is answered 400. -/
theorem zero_text_rejected :
    textAbsentOrBlank (JsVal.num 0) = false ∧
    responses sampleEnv upStore
        (mkReq "POST" "/api/lembretes" (JsVal.obj [("texto", JsVal.num 0)])) =
      [⟨400, corsHeaders, some (JsVal.obj [("success", JsVal.bool false),
        ("message", JsVal.str "Texto do lembrete é obrigatório")])⟩] := by
  constructor
  · rfl
  · rfl

/-- C3 (amended): a response has status 400 only if the request is
`POST /api/lembretes` and its `texto` is falsy (absent, `null`, `false`, 0 or
empty) or a string that is empty after trimming, and then its body is
success=false with the explanatory message; conversely every such request that
carries a body is answered by exactly that 400 response. No other request, under
any store behaviour, produces status 400. -/
theorem bad_request_iff_text_rejected (env : Env) (store : Store) (req : Request) :
    (∀ r ∈ responses env store req, r.status = 400 →
      req.method = "POST" ∧ env.parseURL req.url (baseOf req) = some "/api/lembretes" ∧
      textRejected (getProp req.body "texto") = true ∧
      r.body = some (JsVal.obj [("success", JsVal.bool false),
        ("message", JsVal.str "Texto do lembrete é obrigatório")])) ∧
    (req.method = "POST" → env.parseURL req.url (baseOf req) = some "/api/lembretes" →
      nullish req.body = false → textRejected (getProp req.body "texto") = true →
      responses env store req = [⟨400, corsHeaders, some (JsVal.obj [
        ("success", JsVal.bool false),
        ("message", JsVal.str "Texto do lembrete é obrigatório")])⟩] ∧
      escaped env store req = false) := by
  constructor
  · intro r hmem h400
    rcases handler_outcome env store req with ⟨_, r', hresp, _, _, h4, _⟩ | ⟨_, hresp, _⟩
    · rw [hresp] at hmem
      simp only [List.mem_singleton] at hmem
      subst hmem
      exact h4 h400
    · rw [hresp] at hmem
      cases hmem
  · intro hm hp hb ht
    have h := create_rejected env store req hm hp hb ht
    exact ⟨h.1, h.2.2⟩

theorem bad_request_iff_text_rejected_witness :
    responses sampleEnv upStore
        (mkReq "POST" "/api/lembretes" (JsVal.obj [("texto", JsVal.str " \t ")])) =
      [⟨400, corsHeaders, some (JsVal.obj [("success", JsVal.bool false),
        ("message", JsVal.str "Texto do lembrete é obrigatório")])⟩] ∧
    escaped sampleEnv upStore
        (mkReq "POST" "/api/lembretes" (JsVal.obj [("texto", JsVal.str " \t ")])) = false :=
  (bad_request_iff_text_rejected sampleEnv upStore
    (mkReq "POST" "/api/lembretes" (JsVal.obj [("texto", JsVal.str " \t ")]))).2
    rfl rfl rfl (by decide)

/-! ## C4: create, primary path -/

theorem lembreteRow_fields (t : String) (u : JsVal) (c : String) :
    getProp (lembreteRow t u c) "texto" = JsVal.str t ∧
    getProp (lembreteRow t u c) "status" = JsVal.str "ativo" ∧
    getProp (lembreteRow t u c) "created_at" = JsVal.str c ∧
    getProp (lembreteRow t u c) "user_id" = (if truthy u then u else JsVal.str "pwa-user") := by
  simp [getProp, lembreteRow, ownProps, ownGet]

/-- A row that the store returns with an `id` column added: every submitted
column reads back unchanged. -/
theorem echo_with_id (fs : List (String × JsVal)) (x : JsVal) (hid : ownGet "id" fs = none) :
    ∀ k v, ownGet k fs = some v → getProp (JsVal.obj (setProp "id" x fs)) k = v := by
  intro k v hk
  unfold getProp
  show (ownGet k (setProp "id" x fs)).getD JsVal.undefined = v
  rw [ownGet_setProp]
  by_cases h : k = "id"
  · subst h
    rw [hid] at hk
    cases hk
  · simp [h, hk]

/-- C4 (counterexample): a create that supplies the empty string as `userId`
submits a row whose `user_id` is the placeholder, not the supplied value. -/
theorem empty_owner_defaulted :
    queries sampleEnv upStore (mkReq "POST" "/api/lembretes"
        (JsVal.obj [("texto", JsVal.str "x"), ("userId", JsVal.str "")])) =
      [StoreOp.insert "lembretes" [JsVal.obj [("texto", JsVal.str "x"),
        ("user_id", JsVal.str "pwa-user"),
        ("created_at", JsVal.str "2024-01-01T00:00:00.000Z"),
        ("status", JsVal.str "ativo")]]] ∧
    getProp (JsVal.obj [("texto", JsVal.str "x"), ("user_id", JsVal.str "pwa-user"),
        ("created_at", JsVal.str "2024-01-01T00:00:00.000Z"),
        ("status", JsVal.str "ativo")]) "user_id" ≠ JsVal.str "" := by
  constructor
  · rfl
  · simp [getProp, ownProps, ownGet]

/-- C4 (amended): for a `POST /api/lembretes` whose `texto` is a string `s` that
is not empty after trimming, with the store returning the inserted row without
error: exactly one insert is issued, of a row whose text is the trimmed input,
whose status is `ativo`, whose `created_at` is set, and whose `user_id` is the
supplied `userId` when that value is truthy and the placeholder `pwa-user`
otherwise (omitted, `null`, `false`, 0 or the empty string); the response is 201
with success=true and `data` the row the store returned, whose text is the
trimmed input. -/
theorem create_stores_trimmed (env : Env) (store : Store) (req : Request) (s : String)
    (row : JsVal) (more : List JsVal) (err : JsVal)
    (hm : req.method = "POST")
    (hp : env.parseURL req.url (baseOf req) = some "/api/lembretes")
    (ht : getProp req.body "texto" = JsVal.str s) (hs : jsTrim s ≠ "")
    (hstore : store (StoreOp.insert "lembretes"
        [lembreteRow (jsTrim s) (getProp req.body "userId") (env.toISOString (env.clock 1))]) =
      StoreOutcome.resolved (some (row :: more)) err)
    (herr : truthy err = false)
    (hecho : ∀ k v, ownGet k (ownProps (lembreteRow (jsTrim s) (getProp req.body "userId")
        (env.toISOString (env.clock 1)))) = some v → getProp row k = v) :
    queries env store req = [StoreOp.insert "lembretes"
      [lembreteRow (jsTrim s) (getProp req.body "userId") (env.toISOString (env.clock 1))]] ∧
    getProp (lembreteRow (jsTrim s) (getProp req.body "userId")
      (env.toISOString (env.clock 1))) "texto" = JsVal.str (jsTrim s) ∧
    getProp (lembreteRow (jsTrim s) (getProp req.body "userId")
      (env.toISOString (env.clock 1))) "status" = JsVal.str "ativo" ∧
    getProp (lembreteRow (jsTrim s) (getProp req.body "userId")
      (env.toISOString (env.clock 1))) "created_at" =
        JsVal.str (env.toISOString (env.clock 1)) ∧
    getProp (lembreteRow (jsTrim s) (getProp req.body "userId")
      (env.toISOString (env.clock 1))) "user_id" =
        (if truthy (getProp req.body "userId") then getProp req.body "userId"
         else JsVal.str "pwa-user") ∧
    (getProp req.body "userId" = JsVal.undefined →
      getProp (lembreteRow (jsTrim s) (getProp req.body "userId")
        (env.toISOString (env.clock 1))) "user_id" = JsVal.str "pwa-user") ∧
    responses env store req =
      [⟨201, corsHeaders, some (withData "Lembrete criado com sucesso!" row)⟩] ∧
    escaped env store req = false ∧
    getProp row "texto" = JsVal.str (jsTrim s) := by
  have hrows : (store (insertQuery env (jsTrim s) (getProp req.body "userId"))).rows =
      some (row :: more) := by
    unfold insertQuery
    rw [hstore]
    simp [StoreOutcome.rows, herr]
  have h := create_stored env store req s (row :: more) hm hp ht hs hrows
  have hf := lembreteRow_fields (jsTrim s) (getProp req.body "userId")
    (env.toISOString (env.clock 1))
  refine ⟨h.2.1, hf.1, hf.2.1, hf.2.2.1, hf.2.2.2, ?_, ?_, h.2.2, ?_⟩
  · intro hu
    rw [hf.2.2.2, hu]
    rfl
  · simpa using h.1
  · exact hecho "texto" _ (by simp [lembreteRow, ownProps, ownGet])

theorem create_stores_trimmed_witness :
    queries sampleEnv upStore
        (mkReq "POST" "/api/lembretes" (JsVal.obj [("texto", JsVal.str "  Buy milk  ")])) =
      [StoreOp.insert "lembretes" [lembreteRow "Buy milk" JsVal.undefined
        "2024-01-01T00:00:00.000Z"]] ∧
    responses sampleEnv upStore
        (mkReq "POST" "/api/lembretes" (JsVal.obj [("texto", JsVal.str "  Buy milk  ")])) =
      [⟨201, corsHeaders, some (withData "Lembrete criado com sucesso!"
        (JsVal.obj [("texto", JsVal.str "Buy milk"), ("user_id", JsVal.str "pwa-user"),
          ("created_at", JsVal.str "2024-01-01T00:00:00.000Z"), ("status", JsVal.str "ativo"),
          ("id", JsVal.num 1)]))⟩] ∧
    getProp (JsVal.obj [("texto", JsVal.str "Buy milk"), ("user_id", JsVal.str "pwa-user"),
          ("created_at", JsVal.str "2024-01-01T00:00:00.000Z"), ("status", JsVal.str "ativo"),
          ("id", JsVal.num 1)]) "texto" = JsVal.str "Buy milk" := by
  have h := create_stores_trimmed sampleEnv upStore
    (mkReq "POST" "/api/lembretes" (JsVal.obj [("texto", JsVal.str "  Buy milk  ")]))
    "  Buy milk  "
    (JsVal.obj [("texto", JsVal.str "Buy milk"), ("user_id", JsVal.str "pwa-user"),
      ("created_at", JsVal.str "2024-01-01T00:00:00.000Z"), ("status", JsVal.str "ativo"),
      ("id", JsVal.num 1)]) [] JsVal.null rfl rfl rfl (by decide) rfl rfl
    (echo_with_id _ _ rfl)
  exact ⟨h.1, h.2.2.2.2.2.2.1, h.2.2.2.2.2.2.2.2⟩

/-! ## C6: update, fallback path -/

/-- C6 (counterexample): with a body that has its own `id`, the fallback of
update answers with the body's id, not the id of the path. -/
theorem update_fallback_body_id_wins :
    responses sampleEnv downStore (mkReq "PUT" "/api/lembretes/42"
        (JsVal.obj [("id", JsVal.str "99"), ("texto", JsVal.str "x")])) =
      [⟨200, corsHeaders, some (withData "Atualização simulada (offline)"
        (JsVal.obj [("id", JsVal.str "99"), ("texto", JsVal.str "x")]))⟩] ∧
    getProp (JsVal.obj [("id", JsVal.str "99"), ("texto", JsVal.str "x")]) "id" ≠
      JsVal.str "42" := by
  constructor
  · rfl
  · simp [getProp, ownProps, ownGet]

/-- C6 (amended): for every id segment `s` and every request body, `PUT` on
`/api/lembretes/` + `s` against a store that fails (it rejects, resolves to
nothing, reports an error or returns no data) responds 200 with success=true,
the offline-simulation message, and `data` the merge `{ id, ...body }`: every own
field of the body appears in `data` unchanged, `data.id` is the path id when the
body has no `id` of its own, and no `updated_at` is added. -/
theorem update_fallback_merges (env : Env) (store : Store) (req : Request) (s rest : String)
    (hm : req.method = "PUT")
    (hp : env.parseURL req.url (baseOf req) = some ("/api/lembretes/" ++ s ++ rest))
    (hs : '/' ∉ s.data) (hr : rest = "" ∨ rest.data.head? = some '/')
    (hfail : (store (updateQuery env (JsVal.str s) req.body)).rows = none) :
    responses env store req = [⟨200, corsHeaders, some (withData "Atualização simulada (offline)"
      (JsVal.obj (spreadInto [("id", JsVal.str s)] req.body)))⟩] ∧
    escaped env store req = false ∧
    (∀ k v, ownGet k (ownProps req.body) = some v →
      getProp (JsVal.obj (spreadInto [("id", JsVal.str s)] req.body)) k = v) ∧
    (ownGet "id" (ownProps req.body) = none →
      getProp (JsVal.obj (spreadInto [("id", JsVal.str s)] req.body)) "id" = JsVal.str s) ∧
    (ownGet "updated_at" (ownProps req.body) = none →
      getProp (JsVal.obj (spreadInto [("id", JsVal.str s)] req.body)) "updated_at" =
        JsVal.undefined) := by
  have hid := id_of_path s rest hs hr
  have hpre := startsWith_lembretes s rest
  have hans : responses env store req = [⟨200, corsHeaders,
      some (withData "Atualização simulada (offline)"
        (JsVal.obj (spreadInto [("id", JsVal.str s)] req.body)))⟩] ∧
      escaped env store req = false := by
    cases hb : nullish req.body with
    | true =>
      have h := update_no_body env store req _ hm hp hpre hb
      rw [hid] at h
      exact ⟨h.1, h.2.2⟩
    | false =>
      have h := update_fallback env store req _ hm hp hpre hb (by rw [hid]; exact hfail)
      rw [hid] at h
      exact ⟨h.1, h.2.2⟩
  refine ⟨hans.1, hans.2, ?_, ?_, ?_⟩
  · intro k v hk
    rw [getProp_spread, hk]
  · intro hk
    rw [getProp_spread, hk]
    simp [getProp, ownProps, ownGet]
  · intro hk
    rw [getProp_spread, hk]
    simp [getProp, ownProps, ownGet]

theorem update_fallback_merges_witness :
    responses sampleEnv downStore
        (mkReq "PUT" "/api/lembretes/42" (JsVal.obj [("texto", JsVal.str "x")])) =
      [⟨200, corsHeaders, some (withData "Atualização simulada (offline)"
        (JsVal.obj [("id", JsVal.str "42"), ("texto", JsVal.str "x")]))⟩] ∧
    escaped sampleEnv downStore
        (mkReq "PUT" "/api/lembretes/42" (JsVal.obj [("texto", JsVal.str "x")])) = false := by
  have h := update_fallback_merges sampleEnv downStore
    (mkReq "PUT" "/api/lembretes/42" (JsVal.obj [("texto", JsVal.str "x")])) "42" ""
    rfl rfl (by decide) (Or.inl rfl) rfl
  exact ⟨h.1, h.2.1⟩

/-! ## C7: the id of the path, and delete -/

/-- C7: on a path `/api/lembretes/` + `s` + `rest`, where `s` has no `/` and
`rest` is empty or starts with `/`, the id extracted is the string `s` (never
`undefined`); update and delete query the store for that id; `DELETE` against a
store that fails responds 200 with success=true, a confirmation message and `id`
equal to `s`, and on store success responds 200 with success=true and a
confirmation message, without `data` or `id`. -/
theorem delete_by_id (env : Env) (store : Store) (req : Request) (s rest : String)
    (hp : env.parseURL req.url (baseOf req) = some ("/api/lembretes/" ++ s ++ rest))
    (hs : '/' ∉ s.data) (hr : rest = "" ∨ rest.data.head? = some '/') :
    strAt (jsSplit ("/api/lembretes/" ++ s ++ rest) '/') 3 = JsVal.str s ∧
    (req.method = "PUT" → nullish req.body = false →
      queries env store req = [updateQuery env (JsVal.str s) req.body]) ∧
    (req.method = "DELETE" →
      queries env store req = [StoreOp.delete "lembretes" "id" (JsVal.str s)] ∧
      ((store (StoreOp.delete "lembretes" "id" (JsVal.str s))).failed = true →
        responses env store req = [⟨200, corsHeaders, some (JsVal.obj [
          ("success", JsVal.bool true), ("message", JsVal.str "Exclusão simulada (offline)"),
          ("id", JsVal.str s)])⟩] ∧ escaped env store req = false) ∧
      ((store (StoreOp.delete "lembretes" "id" (JsVal.str s))).failed = false →
        responses env store req = [⟨200, corsHeaders, some (JsVal.obj [
          ("success", JsVal.bool true), ("message", JsVal.str "Lembrete excluído")])⟩] ∧
        escaped env store req = false)) := by
  have hid := id_of_path s rest hs hr
  have hpre := startsWith_lembretes s rest
  refine ⟨hid, ?_, ?_⟩
  · intro hm hb
    cases hrows : (store (updateQuery env (JsVal.str s) req.body)).rows with
    | some rows =>
      have h := update_stored env store req _ rows hm hp hpre hb (by rw [hid]; exact hrows)
      rw [hid] at h
      exact h.2.1
    | none =>
      have h := update_fallback env store req _ hm hp hpre hb (by rw [hid]; exact hrows)
      rw [hid] at h
      exact h.2.1
  · intro hm
    refine ⟨?_, ?_, ?_⟩
    · cases hf : (store (deleteQuery (JsVal.str s))).failed with
      | true =>
        have h := delete_fallback env store req _ hm hp hpre (by rw [hid]; exact hf)
        rw [hid] at h
        exact h.2.1
      | false =>
        have h := delete_done env store req _ hm hp hpre (by rw [hid]; exact hf)
        rw [hid] at h
        exact h.2.1
    · intro hf
      have h := delete_fallback env store req _ hm hp hpre (by rw [hid]; exact hf)
      rw [hid] at h
      exact ⟨h.1, h.2.2⟩
    · intro hf
      have h := delete_done env store req _ hm hp hpre (by rw [hid]; exact hf)
      rw [hid] at h
      exact ⟨h.1, h.2.2⟩

theorem delete_by_id_witness :
    responses sampleEnv downStore (mkReq "DELETE" "/api/lembretes/7" JsVal.undefined) =
      [⟨200, corsHeaders, some (JsVal.obj [
        ("success", JsVal.bool true), ("message", JsVal.str "Exclusão simulada (offline)"),
        ("id", JsVal.str "7")])⟩] ∧
    escaped sampleEnv downStore (mkReq "DELETE" "/api/lembretes/7" JsVal.undefined) = false :=
  ((delete_by_id sampleEnv downStore (mkReq "DELETE" "/api/lembretes/7" JsVal.undefined)
    "7" "" rfl (by decide) (Or.inl rfl)).2.2 rfl).2.1 rfl

/-! ## C5: the reminders returned -/

theorem truthy_not_nullish (v : JsVal) (h : truthy v = true) : nullish v = false := by
  cases v <;> simp [truthy, nullish] at h ⊢

theorem data_withData (m : String) (d : JsVal) : getProp (withData m d) "data" = d := by
  simp [withData, getProp, ownProps, ownGet]

/-- The reminder synthesized by the fallback of create has its fields populated
as soon as its text is not `undefined` or `null`. -/
theorem synthesized_populated (i : Int) (t : JsVal) (c : String) (ht : nullish t = false) :
    populated (JsVal.obj [("id", JsVal.num i), ("texto", t), ("created_at", JsVal.str c),
      ("status", JsVal.str "ativo")]) "texto" = true ∧
    populated (JsVal.obj [("id", JsVal.num i), ("texto", t), ("created_at", JsVal.str c),
      ("status", JsVal.str "ativo")]) "id" = true ∧
    populated (JsVal.obj [("id", JsVal.num i), ("texto", t), ("created_at", JsVal.str c),
      ("status", JsVal.str "ativo")]) "created_at" = true := by
  refine ⟨?_, ?_, ?_⟩
  · simp [populated, getProp, ownProps, ownGet, ht]
  · simp [populated, getProp, ownProps, ownGet, nullish]
  · simp [populated, getProp, ownProps, ownGet, nullish]

theorem spread_texto (id body : JsVal) :
    getProp (JsVal.obj (spreadInto [("id", id)] body)) "texto" = getProp body "texto" := by
  rw [getProp_spread]
  unfold getProp
  cases ownGet "texto" (ownProps body) <;> simp [ownProps, ownGet]

theorem spread_id (id body : JsVal) (h : ownGet "id" (ownProps body) = none) :
    getProp (JsVal.obj (spreadInto [("id", id)] body)) "id" = id := by
  rw [getProp_spread, h]
  simp [getProp, ownProps, ownGet]

theorem merged_populated (p : String) (body : JsVal)
    (hpre : jsStartsWith p "/api/lembretes/" = true) :
    populated (JsVal.obj (spreadInto [("id", strAt (jsSplit p '/') 3)] body)) "texto" =
      populated body "texto" ∧
    (ownGet "id" (ownProps body) = none →
      populated (JsVal.obj (spreadInto [("id", strAt (jsSplit p '/') 3)] body)) "id" = true) := by
  constructor
  · unfold populated
    rw [spread_texto]
  · intro h
    obtain ⟨s, hs⟩ := id_defined p hpre
    unfold populated
    rw [spread_id _ _ h, hs]
    rfl

/-- C5 (counterexample): the fallback of update for a body without `texto`
returns a reminder whose text is not populated. -/
theorem update_fallback_without_text :
    responses sampleEnv downStore (mkReq "PUT" "/api/lembretes/42"
        (JsVal.obj [("status", JsVal.str "feito")])) =
      [⟨200, corsHeaders, some (withData "Atualização simulada (offline)"
        (JsVal.obj [("id", JsVal.str "42"), ("status", JsVal.str "feito")]))⟩] ∧
    populated (JsVal.obj [("id", JsVal.str "42"), ("status", JsVal.str "feito")]) "texto" =
      false := by
  constructor
  · rfl
  · rfl

/-- C5 (amended): assume that the rows the store returns without error in this
invocation have `texto`, `id` and `created_at` populated, and that an insert or
update that succeeds returns at least one row. Then every item of the `data` of a
list response has `texto` and `id` populated; the `data` of every create (201)
response has `texto`, `id` and `created_at` populated; the `data` of an update
response has `texto` and `id` populated when the store returned rows, and in the
fallback is the merge `{ id, ...body }`, whose `texto` is populated exactly when
the body's is and whose `id` is populated when the body has no `id` of its own. -/
theorem returned_reminders_populated (env : Env) (store : Store) (req : Request) (p : String)
    (hp : env.parseURL req.url (baseOf req) = some p)
    (hrows : ∀ op ∈ queries env store req, ∀ rows, (store op).rows = some rows →
      (op.isWrite = true → rows ≠ []) ∧
      ∀ row ∈ rows, populated row "texto" = true ∧ populated row "id" = true ∧
        populated row "created_at" = true) :
    ∀ r ∈ responses env store req, ∀ body, r.body = some body →
      (req.method = "GET" → p = "/api/lembretes" →
        ∃ items, getProp body "data" = JsVal.arr items ∧
          ∀ item ∈ items, populated item "texto" = true ∧ populated item "id" = true) ∧
      (r.status = 201 →
        populated (getProp body "data") "texto" = true ∧
        populated (getProp body "data") "id" = true ∧
        populated (getProp body "data") "created_at" = true) ∧
      (req.method = "PUT" → jsStartsWith p "/api/lembretes/" = true →
        ((store (updateQuery env (strAt (jsSplit p '/') 3) req.body)).rows ≠ none →
          nullish req.body = false →
          populated (getProp body "data") "texto" = true ∧
          populated (getProp body "data") "id" = true) ∧
        ((store (updateQuery env (strAt (jsSplit p '/') 3) req.body)).rows = none ∨
            nullish req.body = true →
          getProp body "data" =
            JsVal.obj (spreadInto [("id", strAt (jsSplit p '/') 3)] req.body) ∧
          populated (getProp body "data") "texto" = populated req.body "texto" ∧
          (ownGet "id" (ownProps req.body) = none →
            populated (getProp body "data") "id" = true))) := by
  intro r hmem body hbody
  -- reduce to the single response of each case
  have key : ∀ (r0 : Response) (qs : List StoreOp), Answers env store req r0 qs →
      r = r0 ∧ queries env store req = qs := by
    intro r0 qs h
    rw [h.1] at hmem
    exact ⟨List.mem_singleton.mp hmem, h.2.1⟩
  by_cases hO : req.method = "OPTIONS"
  · obtain ⟨hr0, _⟩ := key _ _ (options_answers env store req hO)
    subst hr0
    cases hbody
  cases hr : routedByCode req.method p with
  | false =>
    obtain ⟨hr0, _⟩ := key _ _ (not_found_answers env store req p hO hp hr)
    subst hr0
    refine ⟨?_, ?_, ?_⟩
    · intro hg hpath
      simp [routedByCode, hg, hpath] at hr
    · intro h
      simp at h
    · intro hg hpre
      simp [routedByCode, hg, hpre] at hr
  | true =>
    rcases routedByCode_cases _ _ hr with ⟨hg, hpath⟩ | ⟨hg, hpath⟩ | ⟨hg, hpath⟩ |
      ⟨hg, hpre⟩ | ⟨hg, hpre⟩
    · -- health
      obtain ⟨hr0, _⟩ := key _ _ (health_answers env store req p hg hp hpath)
      subst hr0
      refine ⟨?_, ?_, ?_⟩
      · intro _ hl
        rcases hpath with h | h <;> rw [h] at hl <;> exact absurd hl (by decide)
      · intro h
        simp at h
      · intro h
        rw [hg] at h
        exact absurd h (by decide)
    · -- list
      subst hpath
      have hput : req.method ≠ "PUT" := by rw [hg]; decide
      cases hrows' : (store listQuery).rows with
      | some rows =>
        obtain ⟨hr0, hq⟩ := key _ _ (list_rows env store req rows hg hp hrows')
        subst hr0
        cases hbody
        refine ⟨?_, ?_, ?_⟩
        · intro _ _
          refine ⟨rows, by simp [getProp, ownProps, ownGet], ?_⟩
          intro item hitem
          have := (hrows listQuery (by rw [hq]; simp) rows hrows').2 item hitem
          exact ⟨this.1, this.2.1⟩
        · intro h
          simp at h
        · intro h
          exact absurd h hput
      | none =>
        obtain ⟨hr0, _⟩ := key _ _ (list_mock env store req hg hp hrows')
        subst hr0
        cases hbody
        refine ⟨?_, ?_, ?_⟩
        · intro _ _
          refine ⟨_, data_withData _ _, ?_⟩
          intro item hitem
          simp only [mockRows, List.mem_cons, List.mem_singleton, List.not_mem_nil, or_false]
            at hitem
          rcases hitem with h | h <;> subst h <;>
            simp [populated, getProp, ownProps, ownGet, nullish]
        · intro h
          simp at h
        · intro h
          exact absurd h hput
    · -- create
      subst hpath
      have hput : req.method ≠ "PUT" := by rw [hg]; decide
      have hget : req.method ≠ "GET" := by rw [hg]; decide
      cases hb : nullish req.body with
      | true =>
        rw [(create_no_body env store req hg hp hb).1] at hmem
        cases hmem
      | false =>
        rcases textRejected_or (getProp req.body "texto") with ht | ⟨s, ht, hs⟩ | ⟨ht, hns⟩
        · obtain ⟨hr0, _⟩ := key _ _ (create_rejected env store req hg hp hb ht)
          subst hr0
          exact ⟨fun h => absurd h hget, fun h => by simp at h, fun h => absurd h hput⟩
        · cases hrows' : (store (insertQuery env (jsTrim s) (getProp req.body "userId"))).rows with
          | some rows =>
            obtain ⟨hr0, hq⟩ := key _ _ (create_stored env store req s rows hg hp ht hs hrows')
            subst hr0
            cases hbody
            refine ⟨fun h => absurd h hget, ?_, fun h => absurd h hput⟩
            intro _
            have hall := hrows _ (by rw [hq]; simp) rows hrows'
            cases rows with
            | nil => exact absurd rfl (hall.1 rfl)
            | cons row more =>
              rw [data_withData]
              exact hall.2 row (by simp)
          | none =>
            obtain ⟨hr0, _⟩ := key _ _ (create_fallback env store req s hg hp ht hs hrows')
            subst hr0
            cases hbody
            refine ⟨fun h => absurd h hget, ?_, fun h => absurd h hput⟩
            intro _
            rw [data_withData]
            exact synthesized_populated _ _ _ rfl
        · obtain ⟨hr0, _⟩ := key _ _ (create_not_string env store req hg hp hb ht hns)
          subst hr0
          cases hbody
          refine ⟨fun h => absurd h hget, ?_, fun h => absurd h hput⟩
          intro _
          rw [data_withData]
          exact synthesized_populated _ _ _ (truthy_not_nullish _ ht)
    · -- update
      have hget : req.method ≠ "GET" := by rw [hg]; decide
      have hmerged := merged_populated p req.body hpre
      cases hb : nullish req.body with
      | true =>
        obtain ⟨hr0, _⟩ := key _ _ (update_no_body env store req p hg hp hpre hb)
        subst hr0
        cases hbody
        refine ⟨fun h => absurd h hget, fun h => by simp at h, fun _ _ => ⟨?_, ?_⟩⟩
        · intro _ h
          cases h
        · intro _
          rw [data_withData]
          exact ⟨rfl, hmerged.1, hmerged.2⟩
      | false =>
        cases hrows' : (store (updateQuery env (strAt (jsSplit p '/') 3) req.body)).rows with
        | some rows =>
          obtain ⟨hr0, hq⟩ := key _ _ (update_stored env store req p rows hg hp hpre hb hrows')
          subst hr0
          cases hbody
          refine ⟨fun h => absurd h hget, fun h => by simp at h, fun _ _ => ⟨?_, ?_⟩⟩
          · intro _ _
            have hall := hrows _ (by rw [hq]; simp) rows hrows'
            cases rows with
            | nil => exact absurd rfl (hall.1 rfl)
            | cons row more =>
              rw [data_withData]
              have := hall.2 row (by simp)
              exact ⟨this.1, this.2.1⟩
          · intro h
            rcases h with h | h
            · cases h
            · cases h
        | none =>
          obtain ⟨hr0, _⟩ := key _ _ (update_fallback env store req p hg hp hpre hb hrows')
          subst hr0
          cases hbody
          refine ⟨fun h => absurd h hget, fun h => by simp at h, fun _ _ => ⟨?_, ?_⟩⟩
          · intro h
            exact absurd rfl h
          · intro _
            rw [data_withData]
            exact ⟨rfl, hmerged.1, hmerged.2⟩
    · -- delete
      have hget : req.method ≠ "GET" := by rw [hg]; decide
      have hput : req.method ≠ "PUT" := by rw [hg]; decide
      cases hf : (store (deleteQuery (strAt (jsSplit p '/') 3))).failed with
      | true =>
        obtain ⟨hr0, _⟩ := key _ _ (delete_fallback env store req p hg hp hpre hf)
        subst hr0
        exact ⟨fun h => absurd h hget, fun h => by simp at h, fun h => absurd h hput⟩
      | false =>
        obtain ⟨hr0, _⟩ := key _ _ (delete_done env store req p hg hp hpre hf)
        subst hr0
        exact ⟨fun h => absurd h hget, fun h => by simp at h, fun h => absurd h hput⟩

theorem returned_reminders_populated_witness :
    populated (JsVal.obj [("texto", JsVal.str "Buy milk"), ("user_id", JsVal.str "pwa-user"),
      ("created_at", JsVal.str "2024-01-01T00:00:00.000Z"), ("status", JsVal.str "ativo"),
      ("id", JsVal.num 1)]) "texto" = true ∧
    populated (JsVal.obj [("texto", JsVal.str "Buy milk"), ("user_id", JsVal.str "pwa-user"),
      ("created_at", JsVal.str "2024-01-01T00:00:00.000Z"), ("status", JsVal.str "ativo"),
      ("id", JsVal.num 1)]) "id" = true ∧
    populated (JsVal.obj [("texto", JsVal.str "Buy milk"), ("user_id", JsVal.str "pwa-user"),
      ("created_at", JsVal.str "2024-01-01T00:00:00.000Z"), ("status", JsVal.str "ativo"),
      ("id", JsVal.num 1)]) "created_at" = true :=
  (returned_reminders_populated sampleEnv upStore
    (mkReq "POST" "/api/lembretes" (JsVal.obj [("texto", JsVal.str "  Buy milk  ")]))
    "/api/lembretes" rfl
    (by
      intro op hop rows hr
      have hq : queries sampleEnv upStore
          (mkReq "POST" "/api/lembretes" (JsVal.obj [("texto", JsVal.str "  Buy milk  ")])) =
          [StoreOp.insert "lembretes" [lembreteRow "Buy milk" JsVal.undefined
            "2024-01-01T00:00:00.000Z"]] := rfl
      rw [hq] at hop
      rw [List.mem_singleton.mp hop] at hr
      have e : (upStore (StoreOp.insert "lembretes" [lembreteRow "Buy milk" JsVal.undefined
            "2024-01-01T00:00:00.000Z"])).rows =
          some [JsVal.obj [("texto", JsVal.str "Buy milk"), ("user_id", JsVal.str "pwa-user"),
            ("created_at", JsVal.str "2024-01-01T00:00:00.000Z"),
            ("status", JsVal.str "ativo"), ("id", JsVal.num 1)]] := rfl
      rw [e] at hr
      cases hr
      refine ⟨fun _ => by simp, ?_⟩
      intro row hrow
      rw [List.mem_singleton.mp hrow]
      exact ⟨rfl, rfl, rfl⟩)
    ⟨201, corsHeaders, some (withData "Lembrete criado com sucesso!"
      (JsVal.obj [("texto", JsVal.str "Buy milk"), ("user_id", JsVal.str "pwa-user"),
        ("created_at", JsVal.str "2024-01-01T00:00:00.000Z"), ("status", JsVal.str "ativo"),
        ("id", JsVal.num 1)]))⟩
    (List.mem_singleton.mpr rfl) _ rfl).2.1 rfl

/-! ## C8: list -/

/-- C8: for every store outcome, `GET /api/lembretes` returns normally with one
response, 200 with success=true. When the store returns a row sequence without
error, `count` is the length of the sequence and `data` is the sequence; in every
other case (the store rejects or throws, resolves to nothing, reports an error, or
returns no data) the offline-mode message is included and `data` is the two-item
mock sequence. -/
theorem list_always_succeeds (env : Env) (store : Store) (req : Request)
    (hm : req.method = "GET")
    (hp : env.parseURL req.url (baseOf req) = some "/api/lembretes") :
    escaped env store req = false ∧
    (∃ body, responses env store req = [⟨200, corsHeaders, some body⟩] ∧
      getProp body "success" = JsVal.bool true) ∧
    (∀ rows, (store listQuery).rows = some rows →
      responses env store req = [⟨200, corsHeaders, some (JsVal.obj [
        ("success", JsVal.bool true), ("count", JsVal.num rows.length),
        ("data", JsVal.arr rows)])⟩]) ∧
    ((store listQuery).rows = none →
      responses env store req = [⟨200, corsHeaders, some (JsVal.obj [
        ("success", JsVal.bool true),
        ("message", JsVal.str "Modo offline - usando dados mock"),
        ("data", JsVal.arr [
          JsVal.obj [("id", JsVal.num 1), ("texto", JsVal.str "Reunião às 10h"),
            ("created_at", JsVal.str (env.toISOString (env.clock 1)))],
          JsVal.obj [("id", JsVal.num 2), ("texto", JsVal.str "Comprar leite"),
            ("created_at", JsVal.str (env.toISOString (env.clock 2)))]])])⟩]) ∧
    ((store listQuery).failed = true → (store listQuery).rows = none) := by
  refine ⟨?_, ?_, ?_, ?_, failed_rows _⟩
  · cases hr : (store listQuery).rows with
    | some rows => exact (list_rows env store req rows hm hp hr).2.2
    | none => exact (list_mock env store req hm hp hr).2.2
  · cases hr : (store listQuery).rows with
    | some rows =>
      exact ⟨_, (list_rows env store req rows hm hp hr).1, by simp [getProp, ownProps, ownGet]⟩
    | none =>
      exact ⟨_, (list_mock env store req hm hp hr).1,
        by simp [withData, getProp, ownProps, ownGet]⟩
  · intro rows hr
    exact (list_rows env store req rows hm hp hr).1
  · intro hr
    exact (list_mock env store req hm hp hr).1

theorem list_always_succeeds_witness :
    responses sampleEnv downStore (mkReq "GET" "/api/lembretes" JsVal.undefined) =
      [⟨200, corsHeaders, some (JsVal.obj [
        ("success", JsVal.bool true),
        ("message", JsVal.str "Modo offline - usando dados mock"),
        ("data", JsVal.arr [
          JsVal.obj [("id", JsVal.num 1), ("texto", JsVal.str "Reunião às 10h"),
            ("created_at", JsVal.str "2024-01-01T00:00:00.000Z")],
          JsVal.obj [("id", JsVal.num 2), ("texto", JsVal.str "Comprar leite"),
            ("created_at", JsVal.str "2024-01-01T00:00:00.000Z")]])])⟩] :=
  (list_always_succeeds sampleEnv downStore (mkReq "GET" "/api/lembretes" JsVal.undefined)
    rfl rfl).2.2.2.1 rfl

/-! ## C9: CORS headers and preflight -/

/-- C9: every response the handler sends carries the four cross-origin headers
with exactly the values of `corsHeaders`; and for method `OPTIONS`, whatever the
URL, host, body, platform and store, the invocation consists of sending one
response, 200 with no body: no clock reading, no log line, no URL parsing, no
store query. -/
theorem cors_and_preflight :
    (∀ (env : Env) (store : Store) (req : Request),
      ∀ r ∈ responses env store req, r.headers =
        [("Access-Control-Allow-Origin", "*"),
         ("Access-Control-Allow-Methods", "GET, POST, PUT, DELETE, OPTIONS"),
         ("Access-Control-Allow-Headers", "Content-Type, Authorization, X-Requested-With"),
         ("Access-Control-Max-Age", "86400")]) ∧
    (∀ (env : Env) (store : Store) (url : String) (host : Option String) (body : JsVal),
      run env store ⟨"OPTIONS", url, host, body⟩ =
        Step.ok () ⟨0, corsHeaders, 200, [Event.send ⟨200, corsHeaders, none⟩]⟩) := by
  constructor
  · intro env store req r hmem
    rcases handler_outcome env store req with ⟨_, r', hresp, hc, _⟩ | ⟨_, hresp, _⟩
    · rw [hresp] at hmem
      rw [List.mem_singleton.mp hmem, hc]
      rfl
    · rw [hresp] at hmem
      cases hmem
  · intro env store url host body
    exact run_options env store _ rfl

theorem cors_and_preflight_witness :
    (⟨404, corsHeaders, some (JsVal.obj [("success", JsVal.bool false),
        ("message", JsVal.str "Rota não encontrada"),
        ("path", JsVal.str "/nada")])⟩ : Response).headers =
      [("Access-Control-Allow-Origin", "*"),
       ("Access-Control-Allow-Methods", "GET, POST, PUT, DELETE, OPTIONS"),
       ("Access-Control-Allow-Headers", "Content-Type, Authorization, X-Requested-With"),
       ("Access-Control-Max-Age", "86400")] :=
  cors_and_preflight.1 sampleEnv downStore (mkReq "GET" "/nada" JsVal.undefined) _
    (List.mem_singleton.mpr rfl)

/-! ## C10: create, fallback path -/

/-- C10: for a `POST /api/lembretes` whose `texto` is a string `s` that is not
empty after trimming, when the insert fails (the store rejects or throws, resolves
to nothing, reports an error, or returns no data) the response is 201 with
success=true and a synthesized reminder: `id` the number read from the clock,
`texto` the string `s` exactly as received, `created_at` the current time, `status`
`ativo`, and no `user_id`. So when `s` has leading or trailing white space the
`texto` answered differs from the trimmed text that was submitted to the store. -/
theorem create_fallback_keeps_raw_text (env : Env) (store : Store) (req : Request)
    (s : String) (hm : req.method = "POST")
    (hp : env.parseURL req.url (baseOf req) = some "/api/lembretes")
    (ht : getProp req.body "texto" = JsVal.str s) (hs : jsTrim s ≠ "")
    (hfail : (store (StoreOp.insert "lembretes"
      [lembreteRow (jsTrim s) (getProp req.body "userId")
        (env.toISOString (env.clock 1))])).rows = none) :
    responses env store req = [⟨201, corsHeaders, some (JsVal.obj [
      ("success", JsVal.bool true),
      ("message", JsVal.str "Lembrete salvo localmente (modo offline)"),
      ("data", JsVal.obj [("id", JsVal.num (env.clock 2)), ("texto", JsVal.str s),
        ("created_at", JsVal.str (env.toISOString (env.clock 3))),
        ("status", JsVal.str "ativo")])])⟩] ∧
    escaped env store req = false ∧
    queries env store req = [StoreOp.insert "lembretes"
      [lembreteRow (jsTrim s) (getProp req.body "userId") (env.toISOString (env.clock 1))]] ∧
    getProp (JsVal.obj [("id", JsVal.num (env.clock 2)), ("texto", JsVal.str s),
        ("created_at", JsVal.str (env.toISOString (env.clock 3))),
        ("status", JsVal.str "ativo")]) "user_id" = JsVal.undefined ∧
    ((∃ c, s.data.head? = some c ∧ isJsSpace c = true) ∨
        (∃ c, s.data.getLast? = some c ∧ isJsSpace c = true) →
      getProp (JsVal.obj [("id", JsVal.num (env.clock 2)), ("texto", JsVal.str s),
        ("created_at", JsVal.str (env.toISOString (env.clock 3))),
        ("status", JsVal.str "ativo")]) "texto" ≠ JsVal.str (jsTrim s)) := by
  have h := create_fallback env store req s hm hp ht hs hfail
  refine ⟨h.1, h.2.2, h.2.1, ?_, ?_⟩
  · simp [getProp, ownProps, ownGet]
  · intro hpad
    have hne := trim_changes s hpad
    simp [getProp, ownProps, ownGet, hne]

theorem create_fallback_keeps_raw_text_witness :
    responses sampleEnv downStore
        (mkReq "POST" "/api/lembretes" (JsVal.obj [("texto", JsVal.str "  Buy milk  ")])) =
      [⟨201, corsHeaders, some (JsVal.obj [
        ("success", JsVal.bool true),
        ("message", JsVal.str "Lembrete salvo localmente (modo offline)"),
        ("data", JsVal.obj [("id", JsVal.num 1704067200000),
          ("texto", JsVal.str "  Buy milk  "),
          ("created_at", JsVal.str "2024-01-01T00:00:00.000Z"),
          ("status", JsVal.str "ativo")])])⟩] :=
  (create_fallback_keeps_raw_text sampleEnv downStore
    (mkReq "POST" "/api/lembretes" (JsVal.obj [("texto", JsVal.str "  Buy milk  ")]))
    "  Buy milk  " rfl rfl rfl (by decide) rfl).1

end MindIt
